import Mathlib

/-!
# date-range-picker: calendar model and range-selection state machine

A shallow embedding of `src/index.js`.

* `ES` holds the date arithmetic of the platform `Date` object the source calls
  (`new Date(y, m, d)`, `getDate`, `setMonth`, ...), written after the abstract operations
  of the ECMAScript specification (`Day`, `DayFromYear`, `YearFromTime`, `MakeDay`, ...).
  A time value is an `Int` number of milliseconds since the epoch.  Local time is modelled
  as UTC plus a fixed offset `tz` (no daylight-saving transitions); the rounding of doubles
  is not modelled.  The range limit of time values (`TimeClip`) is modelled in
  `Month.getDay`, whose argument is any integer; the other dates are taken within the range.
* `Day`, `Month`, `Calendar` and `DateRangePicker` follow the classes of the source.
  Locale dependent strings (`toLocaleString`) come from a `Lang` record.
  DOM rendering is left out; the few DOM facts the logic reads back (the `hide` class of
  the modal, the `data-date-range` attribute of the label, the classes of a day button)
  are fields of the state.
-/

namespace ES

/-- Milliseconds per day. -/
def msPerDay : Int := 86400000

/-- Day number of a time value: `floor(t / msPerDay)`. -/
def Day (t : Int) : Int := t / msPerDay

/-- Milliseconds elapsed within the day: `t modulo msPerDay`. -/
def TimeWithinDay (t : Int) : Int := t % msPerDay

/-- Number of days in year `y` (ECMAScript `DaysInYear`). -/
def DaysInYear (y : Int) : Int :=
  if y % 4 ≠ 0 then 365
  else if y % 100 ≠ 0 then 366
  else if y % 400 ≠ 0 then 365
  else 366

/-- Day number of the first day of year `y` (ECMAScript `DayFromYear`). -/
def DayFromYear (y : Int) : Int :=
  365 * (y - 1970) + (y - 1969) / 4 - (y - 1901) / 100 + (y - 1601) / 400

/-- The year containing day number `d`: the largest `y` with `DayFromYear y ≤ d`
(see `YearFromDay_spec`), found from the estimate `1970 + floor(d / 365.2425)`. -/
def YearFromDay (d : Int) : Int :=
  let y := 1970 + (400 * d) / 146097
  if d < DayFromYear y then y - 1
  else if DayFromYear (y + 1) ≤ d then y + 1
  else y

/-- ECMAScript `YearFromTime`. -/
def YearFromTime (t : Int) : Int := YearFromDay (Day t)

/-- Leap flag of year `y`: 1 in a leap year, 0 otherwise. -/
def leapFlag (y : Int) : Int := if DaysInYear y = 366 then 1 else 0

/-- ECMAScript `InLeapYear`: 1 in a leap year, 0 otherwise. -/
def InLeapYear (t : Int) : Int := leapFlag (YearFromTime t)

/-- ECMAScript `DayWithinYear`. -/
def DayWithinYear (t : Int) : Int := Day t - DayFromYear (YearFromTime t)

/-- Number of days before month `m` (0-based) in a year with leap flag `l`. -/
def monthStart (m l : Int) : Int :=
  if m ≤ 0 then 0
  else if m = 1 then 31
  else if m = 2 then 59 + l
  else if m = 3 then 90 + l
  else if m = 4 then 120 + l
  else if m = 5 then 151 + l
  else if m = 6 then 181 + l
  else if m = 7 then 212 + l
  else if m = 8 then 243 + l
  else if m = 9 then 273 + l
  else if m = 10 then 304 + l
  else 334 + l

/-- Month (0-based) holding day `dwy` of a year with leap flag `l`
(the table of ECMAScript `MonthFromTime`). -/
def monthOfYearDay (dwy l : Int) : Int :=
  if dwy < 31 then 0
  else if dwy < 59 + l then 1
  else if dwy < 90 + l then 2
  else if dwy < 120 + l then 3
  else if dwy < 151 + l then 4
  else if dwy < 181 + l then 5
  else if dwy < 212 + l then 6
  else if dwy < 243 + l then 7
  else if dwy < 273 + l then 8
  else if dwy < 304 + l then 9
  else if dwy < 334 + l then 10
  else 11

/-- Number of days of month `m` (0-based) in a year with leap flag `l`. -/
def DaysInMonth (m l : Int) : Int :=
  if m = 1 then 28 + l
  else if m = 3 ∨ m = 5 ∨ m = 8 ∨ m = 10 then 30
  else 31

/-- ECMAScript `MonthFromTime` (0 = January). -/
def MonthFromTime (t : Int) : Int := monthOfYearDay (DayWithinYear t) (InLeapYear t)

/-- ECMAScript `DateFromTime` (day of the month, from 1). -/
def DateFromTime (t : Int) : Int :=
  DayWithinYear t - monthStart (MonthFromTime t) (InLeapYear t) + 1

/-- ECMAScript `WeekDay` (0 = Sunday). -/
def WeekDay (t : Int) : Int := (Day t + 4) % 7

/-- ECMAScript `MakeTime`. -/
def MakeTime (hour min sec ms : Int) : Int :=
  hour * 3600000 + min * 60000 + sec * 1000 + ms

/-- ECMAScript `MakeDay`: the day number of day `date` of month `month` (0-based, any
integer: it is normalised into the year) of year `year`. -/
def MakeDay (year month date : Int) : Int :=
  let ym := year + month / 12
  let mn := month % 12
  DayFromYear ym + monthStart mn (leapFlag ym) + date - 1

/-- ECMAScript `MakeDate`. -/
def MakeDate (day time : Int) : Int := day * msPerDay + time

/-- ECMAScript `MakeFullYear`: the `Date` constructor reads a year in `0..99` as
`1900 + year`. -/
def MakeFullYear (year : Int) : Int :=
  if 0 ≤ year ∧ year ≤ 99 then 1900 + year else year

/-- Local time of a time value, for the fixed offset `tz` (milliseconds east of UTC). -/
def LocalTime (tz t : Int) : Int := t + tz

/-- Time value of a local time. -/
def UTC (tz t : Int) : Int := t - tz

/-- The largest time value of a `Date`: 100 000 000 days after the epoch. -/
def maxTime : Int := 8640000000000000

/-- ECMAScript `TimeClip`: a time value beyond the range of `Date` becomes NaN (`none`), the
time value of an Invalid Date. -/
def TimeClip (t : Int) : Option Int :=
  if -maxTime ≤ t ∧ t ≤ maxTime then some t else none

/-- The constructor `new Date(year, monthIndex, date, h, m, s, ms)`, for a date within the
range of time values. -/
def newDate (tz year month : Int) (date : Int := 1) (h : Int := 0) (mi : Int := 0)
    (s : Int := 0) (ms : Int := 0) : Int :=
  UTC tz (MakeDate (MakeDay (MakeFullYear year) month date) (MakeTime h mi s ms))

/-- Method `Date.prototype.getFullYear`. -/
def getFullYear (tz t : Int) : Int := YearFromTime (LocalTime tz t)

/-- Method `Date.prototype.getMonth` (0-based). -/
def getMonth (tz t : Int) : Int := MonthFromTime (LocalTime tz t)

/-- Method `Date.prototype.getDate`. -/
def getDate (tz t : Int) : Int := DateFromTime (LocalTime tz t)

/-- Method `Date.prototype.getDay` (0 = Sunday). -/
def getDay (tz t : Int) : Int := WeekDay (LocalTime tz t)

/-- Method `Date.prototype.setHours(h, m, s, ms)`: the new time value. -/
def setHours (tz t h mi s ms : Int) : Int :=
  UTC tz (MakeDate (Day (LocalTime tz t)) (MakeTime h mi s ms))

/-- Method `Date.prototype.setDate(dt)`: the new time value. -/
def setDate (tz t dt : Int) : Int :=
  let l := LocalTime tz t
  UTC tz (MakeDate (MakeDay (YearFromTime l) (MonthFromTime l) dt) (TimeWithinDay l))

/-- Method `Date.prototype.setMonth(m)`: the new time value. -/
def setMonth (tz t m : Int) : Int :=
  let l := LocalTime tz t
  UTC tz (MakeDate (MakeDay (YearFromTime l) m (DateFromTime l)) (TimeWithinDay l))

/-- Method `Date.prototype.setFullYear(y)`: the new time value. -/
def setFullYear (tz t y : Int) : Int :=
  let l := LocalTime tz t
  UTC tz (MakeDate (MakeDay y (MonthFromTime l) (DateFromTime l)) (TimeWithinDay l))

end ES

/-! ## The platform -/

/-- Locale data behind `date.toLocaleString(lang, ...)`: names by weekday (0 = Sunday) and by
month (0 = January), and the two-digit year. -/
structure Lang where
  weekdayLong : Int → String
  weekdayShort : Int → String
  monthLong : Int → String
  monthShort : Int → String
  year2 : Int → String

/-- What the source takes from its host: the offset of local time, the locale data of each
language tag, and the reading of a string as a time value, `new Date(Number(s)).getTime()`,
with `none` for NaN. -/
structure Env where
  tz : Int
  locale : String → Lang
  Number : String → Option Int

/-- Instance method `padStart(n, "0")` of a string. -/
def padStart0 (n : Nat) (s : String) : String :=
  String.mk (List.replicate (n - s.length) '0') ++ s

/-- English locale data (years of the common era). -/
def Lang.en : Lang where
  weekdayLong := fun n =>
    ["Sunday", "Monday", "Tuesday", "Wednesday", "Thursday", "Friday", "Saturday"].getD n.toNat ""
  weekdayShort := fun n => ["Sun", "Mon", "Tue", "Wed", "Thu", "Fri", "Sat"].getD n.toNat ""
  monthLong := fun n =>
    ["January", "February", "March", "April", "May", "June", "July", "August", "September",
      "October", "November", "December"].getD n.toNat ""
  monthShort := fun n =>
    ["Jan", "Feb", "Mar", "Apr", "May", "Jun", "Jul", "Aug", "Sep", "Oct", "Nov",
      "Dec"].getD n.toNat ""
  year2 := fun y => padStart0 2 (toString (y % 100))

/-! ## `getWeekNumber`, `isLeapYear` -/

/-- Ceiling of the quotient `a / b` of two integers (`Math.ceil(a / b)`), for `0 < b`. -/
def ceilDiv (a b : Int) : Int := Int.neg (Int.neg a / b)

/-- Source `getWeekNumber(date)`: `ceil((pastDaysOfYear + firstDay.getDay() + 1) / 7)`, where
`pastDaysOfYear = (date - firstDayOfTheYear) / 86400000` is a number of days with a fraction;
computed exactly, as the ceiling of a quotient of integers. -/
def getWeekNumber (tz date : Int) : Int :=
  let firstDayOfTheYear := ES.newDate tz (ES.getFullYear tz date) 0 1
  ceilDiv ((date - firstDayOfTheYear) + (ES.getDay tz firstDayOfTheYear + 1) * ES.msPerDay)
    (7 * ES.msPerDay)

/-- Source `isLeapYear(year)`; `%` is the remainder of JavaScript (sign of the dividend). -/
def isLeapYear (year : Int) : Bool :=
  if Int.tmod year 100 = 0 then Int.tmod year 400 = 0 else Int.tmod year 4 = 0

/-! ## class `Day` -/

/-- Source class `Day`, for a valid date. -/
structure Day where
  Date : Int
  date : Int
  day : String
  dayNumber : Int
  dayShort : String
  year : Int
  yearShort : String
  month : String
  monthShort : String
  monthNumber : Int
  timestamp : Int
  week : Int
deriving DecidableEq, Repr

/-- Constructor `new Day(date, lang)` for the time value `date`. -/
def Day.new (env : Env) (date : Int) (lang : String := "default") : Day where
  Date := date
  date := ES.getDate env.tz date
  day := (env.locale lang).weekdayLong (ES.getDay env.tz date)
  dayNumber := ES.getDay env.tz date + 1
  dayShort := (env.locale lang).weekdayShort (ES.getDay env.tz date)
  year := ES.getFullYear env.tz date
  yearShort := (env.locale lang).year2 (ES.getFullYear env.tz date)
  month := (env.locale lang).monthLong (ES.getMonth env.tz date)
  monthShort := (env.locale lang).monthShort (ES.getMonth env.tz date)
  monthNumber := ES.getMonth env.tz date + 1
  timestamp := date
  week := getWeekNumber env.tz date

/-- Method `isEqualTo(date)` for a `Date` argument. -/
def Day.isEqualTo (env : Env) (d : Day) (date : Int) : Bool :=
  ES.getDate env.tz date = d.date ∧ ES.getMonth env.tz date = d.monthNumber - 1 ∧
    ES.getFullYear env.tz date = d.year

/-- Getter `isToday`, at the instant `now`. -/
def Day.isToday (env : Env) (d : Day) (now : Int) : Bool := d.isEqualTo env now

/-- The word characters of a regular expression (class `w` of regular expressions). -/
def isWordChar (c : Char) : Bool := c.isAlphanum || c = '_'

/-- The call `s.replace(re, val)` on the characters of `s`, where `re` is the token `tok`
(of word characters) between two word boundaries: the first occurrence of `tok` that neither
follows nor precedes a word character is replaced by `val` (a value without `$`);
`prevWord` tells whether the character before the list is a word character. -/
def replaceWord (tok val : List Char) (prevWord : Bool) : List Char → List Char
  | [] => []
  | c :: cs =>
    if !prevWord && tok.isPrefixOf (c :: cs) &&
        !((((c :: cs).drop tok.length).head?.map isWordChar).getD false) then
      val ++ (c :: cs).drop tok.length
    else c :: replaceWord tok val (isWordChar c) cs

/-- Method `format(formatStr)`: the twelve calls of `replace`, in the order of the source. -/
def Day.format (d : Day) (formatStr : String) : String :=
  let r (tok val : String) (s : List Char) : List Char := replaceWord tok.data val.data false s
  String.mk
    (formatStr.data
      |> r "YYYY" (toString d.year)
      |> r "YYY" d.yearShort
      |> r "WW" (padStart0 2 (toString d.week))
      |> r "W" (toString d.week)
      |> r "DDDD" d.day
      |> r "DDD" d.dayShort
      |> r "DD" (padStart0 2 (toString d.date))
      |> r "D" (toString d.date)
      |> r "MMMM" d.month
      |> r "MMM" d.monthShort
      |> r "MM" (padStart0 2 (toString d.monthNumber))
      |> r "M" (toString d.monthNumber))

/-- A `Day` object: built from a valid date, or from an Invalid Date
(`new Day(new Date(NaN))`, whose numeric fields are all NaN). -/
inductive DayObj where
  | valid (d : Day)
  | invalid
deriving DecidableEq, Repr

/-- Field `timestamp` of a `Day` object; `none` is NaN. -/
def DayObj.timestamp : DayObj → Option Int
  | .valid d => some d.timestamp
  | .invalid => none

/-- Constructor `new Day(new Date(v), lang)` for a number `v` that may be NaN. -/
def DayObj.new (env : Env) (v : Option Int) (lang : String := "default") : DayObj :=
  match v with
  | some t => .valid (Day.new env t lang)
  | none => .invalid

/-! ## class `Month` -/

/-- Source class `Month`. -/
structure Month where
  lang : String
  name : String
  number : Int
  year : Int
  numberOfDays : Int
deriving DecidableEq, Repr

/-- The table `monthsSize` of the `Month` constructor. -/
def monthsSize : List Int := [31, 28, 31, 30, 31, 30, 31, 31, 30, 31, 30, 31]

/-- Constructor `new Month(date, lang)` for the time value `date`. -/
def Month.new (env : Env) (date : Int) (lang : String := "default") : Month :=
  let day := Day.new env date lang
  let number := day.monthNumber
  let numberOfDays := monthsSize.getD (number - 1).toNat 0
  { lang := lang
    name := day.month
    number := number
    year := day.year
    numberOfDays :=
      if number = 2 then numberOfDays + (if isLeapYear day.year then 1 else 0) else numberOfDays }

/-- Method `Month.getDay(date)` for a date within the range of time values, where the `Day`
is a valid one: `new Day(new Date(this.year, this.number - 1, date), this.lang)`. -/
def Month.getDayInRange (env : Env) (m : Month) (date : Int) : Day :=
  Day.new env (ES.newDate env.tz m.year (m.number - 1) date) m.lang

/-- Method `Month.getDay(date)` for any integer `date`: there is no range check, and a date
beyond the range of time values gives the `Day` of an Invalid Date. -/
def Month.getDay (env : Env) (m : Month) (date : Int) : DayObj :=
  DayObj.new env (ES.TimeClip (ES.newDate env.tz m.year (m.number - 1) date)) m.lang

/-- The iterator of a `Month`: day 1, then days 2 ... `numberOfDays`. -/
def Month.days (env : Env) (m : Month) : List Day :=
  m.getDayInRange env 1 ::
    (List.range (m.numberOfDays - 1).toNat).map (fun i => m.getDayInRange env (i + 2))

/-! ## class `Calendar` -/

/-- Source class `Calendar`; an entry of `weekDays` not yet filled (`undefined`) is `none`. -/
structure Calendar where
  weekDays : List (Option String)
  today : Day
  year : Int
  month : Month
  lang : String
deriving DecidableEq, Repr

/-- One round of the `forEach` of the `Calendar` constructor, for index `i`. -/
def Calendar.weekDayStep (env : Env) (month : Month) (weekDays : List (Option String))
    (i : Nat) : List (Option String) :=
  let day := month.getDayInRange env (i + 1)
  if weekDays.contains (some day.day) then weekDays
  else weekDays.set (day.dayNumber - 1).toNat (some day.day)

/-- Constructor `new Calendar(year, monthNumber, lang)` at the instant `now`;
`year ?? today.year` and `monthNumber || today.monthNumber` as in the source. -/
def Calendar.new (env : Env) (now : Int) (year : Option Int := none)
    (monthNumber : Option Int := none) (lang : String := "default") : Calendar :=
  let today := Day.new env now lang
  let year := year.getD today.year
  let monthNumber :=
    match monthNumber with
    | some n => if n = 0 then today.monthNumber else n
    | none => today.monthNumber
  let month := Month.new env (ES.newDate env.tz year (monthNumber - 1)) lang
  { weekDays := (List.range 7).foldl (Calendar.weekDayStep env month) (List.replicate 7 none)
    today := today
    year := year
    month := month
    lang := lang }

/-- Getter `get isLeapYear()` of `Calendar`. -/
def Calendar.getIsLeapYear (c : Calendar) : Bool := isLeapYear c.year

/-- Method `getMonth(monthNumber)`. -/
def Calendar.getMonth (env : Env) (c : Calendar) (monthNumber : Int) : Month :=
  Month.new env (ES.newDate env.tz c.year (monthNumber - 1)) c.lang

/-- Method `getPreviousMonth()`. -/
def Calendar.getPreviousMonth (env : Env) (c : Calendar) : Month :=
  if c.month.number = 1 then Month.new env (ES.newDate env.tz (c.year - 1) 11) c.lang
  else Month.new env (ES.newDate env.tz c.year (c.month.number - 2)) c.lang

/-- Method `getNextMonth()`. -/
def Calendar.getNextMonth (env : Env) (c : Calendar) : Month :=
  if c.month.number = 12 then Month.new env (ES.newDate env.tz (c.year + 1) 0) c.lang
  else Month.new env (ES.newDate env.tz c.year (c.month.number + 2)) c.lang

/-- Method `goToDate(monthNumber, year)`. -/
def Calendar.goToDate (env : Env) (c : Calendar) (monthNumber year : Int) : Calendar :=
  { c with month := Month.new env (ES.newDate env.tz year (monthNumber - 1)) c.lang, year := year }

/-- Method `goToNextYear()`. -/
def Calendar.goToNextYear (env : Env) (c : Calendar) : Calendar :=
  { c with year := c.year + 1, month := Month.new env (ES.newDate env.tz (c.year + 1) 0) c.lang }

/-- Method `goToPreviousYear()`. -/
def Calendar.goToPreviousYear (env : Env) (c : Calendar) : Calendar :=
  { c with year := c.year - 1, month := Month.new env (ES.newDate env.tz (c.year - 1) 11) c.lang }

/-- Method `goToNextMonth()`. -/
def Calendar.goToNextMonth (env : Env) (c : Calendar) : Calendar :=
  if c.month.number = 12 then c.goToNextYear env
  else { c with month := Month.new env (ES.newDate env.tz c.year (c.month.number + 1 - 1)) c.lang }

/-- Method `goToPreviousMonth()`. -/
def Calendar.goToPreviousMonth (env : Env) (c : Calendar) : Calendar :=
  if c.month.number = 1 then c.goToPreviousYear env
  else { c with month := Month.new env (ES.newDate env.tz c.year (c.month.number - 1 - 1)) c.lang }

/-! ## class `DateRangePicker` -/

/-- Comparison `a >= b` of two numbers; false when either is NaN. -/
def numGe (a b : Option Int) : Bool :=
  match a, b with
  | some x, some y => decide (y ≤ x)
  | _, _ => false

/-- Comparison `a < b` of two numbers; false when either is NaN. -/
def numLt (a b : Option Int) : Bool :=
  match a, b with
  | some x, some y => decide (x < y)
  | _, _ => false

/-- Comparison `a <= b` of two numbers; false when either is NaN. -/
def numLe (a b : Option Int) : Bool :=
  match a, b with
  | some x, some y => decide (x ≤ y)
  | _, _ => false

/-- Comparison `a === b` of two numbers; false when either is NaN. -/
def numEq (a b : Option Int) : Bool :=
  match a, b with
  | some x, some y => decide (x = y)
  | _, _ => false

/-- The text of a number in a template literal. -/
def numToString : Option Int → String
  | some n => toString n
  | none => "NaN"

/-- State of a `DateRangePicker`.  `modalHidden` is the `hide` class of the modal overlay and
`dateRange` the `data-date-range` attribute of the label; `null` is `none`. -/
structure DateRangePicker where
  currentLang : String
  date : Day
  calendarRight : Calendar
  calendarLeft : Calendar
  maxDate : Day
  format : String
  startDate : Option DayObj
  endDate : Option DayObj
  customOption : List String
  modalHidden : Bool
  dateRange : String
deriving DecidableEq, Repr

/-- The payload `rangeData` given to `onApply` and carried by `date-range-event`. -/
structure RangeData where
  startDate : DayObj
  endDate : DayObj
deriving DecidableEq, Repr

namespace DateRangePicker

/-- Method `initializeCalendarVariables(lang)` at the instant `now`. -/
def initializeCalendarVariables (env : Env) (now : Int) (p : DateRangePicker) (lang : String) :
    DateRangePicker :=
  let date := Day.new env now lang
  let calendarRight := Calendar.new env now (some date.year) (some date.monthNumber) lang
  let prevMonth := if date.monthNumber = 1 then 12 else date.monthNumber - 1
  let prevMonthYear := if date.monthNumber = 1 then date.year - 1 else date.year
  { p with
    date := date
    calendarRight := calendarRight
    calendarLeft := Calendar.new env now (some prevMonthYear) (some prevMonth) lang }

/-- The constructor followed by `init()`, at the instant `now`: `lang` is the language the
constructor settles on, `maxDate`, `format` and `customOption` the entries of `config`
(`none` when absent).  `render` leaves the modal hidden and the label attribute empty. -/
def new (env : Env) (now : Int) (lang : String) (maxDate : Option Int := none)
    (format : Option String := none) (customOption : Option (List String) := none) :
    DateRangePicker :=
  let date := Day.new env now lang
  let calendarRight := Calendar.new env now (some date.year) (some date.monthNumber) lang
  initializeCalendarVariables env now
    { currentLang := lang
      date := date
      calendarRight := calendarRight
      calendarLeft := calendarRight
      maxDate := Day.new env (maxDate.getD now) lang
      format :=
        match format with
        | some f => if f = "" then "MMM DD, YYY" else f
        | none => "MMM DD, YYY"
      startDate := none
      endDate := none
      customOption :=
        customOption.getD ["24hour", "week", "30days", "3months", "6months", "1year"]
      modalHidden := true
      dateRange := "" }
    lang

/-- Method `setDateRange(day)`.  The last comparison reads `this.endDate.timestamp`, a
`TypeError` when `endDate` is `null`. -/
def setDateRange (p : DateRangePicker) (day : DayObj) : Except String DateRangePicker :=
  match p.startDate with
  | none => .ok { p with startDate := some day }
  | some startDate =>
    if p.endDate.isNone && numGe day.timestamp startDate.timestamp then
      .ok { p with endDate := some day }
    else if p.endDate.isNone && numLt day.timestamp startDate.timestamp then
      .ok { p with endDate := some startDate, startDate := some day }
    else
      match p.endDate with
      | none => .error "TypeError: this.endDate is null"
      | some endDate =>
        if numLe day.timestamp endDate.timestamp then .ok { p with startDate := some day }
        else .ok { p with endDate := some day }

/-- Method `moveToPreviousMonth()`. -/
def moveToPreviousMonth (env : Env) (p : DateRangePicker) : DateRangePicker :=
  { p with
    calendarLeft := p.calendarLeft.goToPreviousMonth env
    calendarRight := p.calendarRight.goToPreviousMonth env }

/-- Method `moveToNextMonth()`. -/
def moveToNextMonth (env : Env) (p : DateRangePicker) : DateRangePicker :=
  { p with
    calendarLeft := p.calendarLeft.goToNextMonth env
    calendarRight := p.calendarRight.goToNextMonth env }

/-- Method `getCustomDates(option)`: the time values of `startDate` and `endDate`.  The
source reads the clock twice, `now1` for `startDate` and then `now2` for `endDate`. -/
def getCustomDates (env : Env) (now1 now2 : Int) (option : String) : Int × Int :=
  let startDate := ES.setHours env.tz now1 0 0 0 0
  let endDate := ES.setHours env.tz now2 0 0 0 0
  let startDate :=
    if option = "24hour" then startDate
    else if option = "week" then ES.setDate env.tz startDate (ES.getDate env.tz startDate - 7)
    else if option = "30days" then ES.setDate env.tz startDate (ES.getDate env.tz startDate - 30)
    else if option = "3months" then
      ES.setMonth env.tz startDate (ES.getMonth env.tz startDate - 3)
    else if option = "6months" then
      ES.setMonth env.tz startDate (ES.getMonth env.tz startDate - 6)
    else if option = "1year" then
      ES.setFullYear env.tz startDate (ES.getFullYear env.tz startDate - 1)
    else startDate
  (startDate, endDate)

/-- Method `setCustomDates(option)`, with the two reads of the clock of `getCustomDates`. -/
def setCustomDates (env : Env) (now1 now2 : Int) (p : DateRangePicker) (option : String) :
    DateRangePicker :=
  let updatedDates := getCustomDates env now1 now2 option
  { p with
    startDate := some (.valid (Day.new env updatedDates.1 p.currentLang))
    endDate := some (.valid (Day.new env updatedDates.2 p.currentLang)) }

/-- Method `getEndOfDay(day)`; `undefined` is `none`. -/
def getEndOfDay (env : Env) (day : Option DayObj) : Option DayObj :=
  match day with
  | some d => some (DayObj.new env (d.timestamp.map (fun t => ES.setHours env.tz t 23 59 59 999)))
  | none => none

/-- Method `updateButtonLabel()`, called with both dates set: the attribute written. -/
def updateButtonLabel (p : DateRangePicker) (startDate endDate : DayObj) : DateRangePicker :=
  { p with dateRange := numToString startDate.timestamp ++ "-" ++ numToString endDate.timestamp }

/-- Instance method `split(sep)` of a string, on its characters. -/
def splitChars (sep : Char) : List Char → List (List Char)
  | [] => [[]]
  | c :: cs =>
    if c = sep then [] :: splitChars sep cs
    else
      match splitChars sep cs with
      | [] => [[c]]
      | part :: parts => (c :: part) :: parts

/-- Instance method `split(sep)` of a string, for a separator of one character. -/
def split (s : String) (sep : Char) : List String := (splitChars sep s.data).map String.mk

/-- Method `preFillSelectedState()`: `this.lang` is not a field of the picker, so the days
are built with the default language. -/
def preFillSelectedState (env : Env) (p : DateRangePicker) : DateRangePicker :=
  let parts := split p.dateRange '-'
  match parts[0]?, parts[1]? with
  | some startDate, some endDate =>
    if startDate ≠ "" ∧ endDate ≠ "" then
      { p with
        startDate := some (DayObj.new env (env.Number startDate))
        endDate := some (DayObj.new env (env.Number endDate)) }
    else p
  | _, _ => p

/-- Method `toggleModal()`. -/
def toggleModal (env : Env) (p : DateRangePicker) : DateRangePicker :=
  if p.modalHidden then { preFillSelectedState env p with modalHidden := false }
  else { p with modalHidden := true }

/-- Method `closeModal()`. -/
def closeModal (env : Env) (p : DateRangePicker) : DateRangePicker :=
  toggleModal env { p with startDate := none, endDate := none }

/-- Method `clearFilter(e)` at the instant `now` (it also fires `clear-date-range-event`). -/
def clearFilter (env : Env) (now : Int) (p : DateRangePicker) : DateRangePicker :=
  initializeCalendarVariables env now
    { p with startDate := none, endDate := none, dateRange := "" } p.currentLang

/-- Method `handleCTA(e)` for a click on the footer button of type `btn`: the new state and
the payload of the `date-range-event` fired (and given to `onApply`), if any.  In the `apply`
case the payload is read from the state left by `toggleModal`, which never resets a date to
`null`. -/
def handleCTA (env : Env) (p : DateRangePicker) (btn : String) :
    DateRangePicker × Option RangeData :=
  if btn = "close" then (closeModal env p, none)
  else if btn = "apply" then
    match p.startDate, p.endDate with
    | some startDate, some endDate =>
      let p := toggleModal env (updateButtonLabel p startDate endDate)
      match p.startDate, p.endDate with
      | some startDate, some endDate =>
        (p, some { startDate := startDate, endDate := (getEndOfDay env (some endDate)).getD endDate })
      | _, _ => (p, none)
    | _, _ => (p, none)
  else if btn = "clear" then
    match p.startDate, p.endDate with
    | some _, some _ => ({ p with startDate := none, endDate := none }, none)
    | _, _ => (p, none)
  else (p, none)

end DateRangePicker

/-! ## The day grid (`getMonthDays`) -/

/-- A button of the day grid as `handleClick` reads it: its class list and its `data-date`
attribute (the day of the month written by the renderer; `none` is the empty string). -/
structure Button where
  classList : List String
  date : Option Int
deriving DecidableEq, Repr

/-- Local function `getMonthDaysGrid(month)`: the leading filler cells (`undefined`), then the
days of the month. -/
def getMonthDaysGrid (env : Env) (month : Month) : List (Option Day) :=
  let firstDayOfTheMonth := month.getDayInRange env 1
  let totalLastMonthFinalDays := firstDayOfTheMonth.dayNumber - 1
  List.replicate totalLastMonthFinalDays.toNat none ++
    (List.range month.numberOfDays.toNat).map (fun k => some (month.getDayInRange env (k + 1)))

/-- Local function `isSelected(day)`; a filler cell is `none`. -/
def isSelected (startDate endDate : Option DayObj) (day : Option Day) : Bool :=
  match day with
  | none => false
  | some d =>
    (match startDate with
      | some s => numEq (some d.timestamp) s.timestamp
      | none => false) ||
    (match endDate with
      | some e => numEq (some d.timestamp) e.timestamp
      | none => false)

/-- Local function `isWithinRange(day)`. -/
def isWithinRange (startDate endDate : Option DayObj) (day : Option Day) : Bool :=
  match day, startDate, endDate with
  | some d, some s, some e =>
    numLt s.timestamp (some d.timestamp) && numLt (some d.timestamp) e.timestamp
  | _, _, _ => false

/-- Local function `getDisabledState(day)`: `day.timestamp > maxDate.timestamp`, false for a
filler cell (whose `timestamp` is `undefined`). -/
def getDisabledState (maxDate : Day) (day : Option Day) : Bool :=
  match day with
  | some d => decide (d.timestamp > maxDate.timestamp)
  | none => false

/-- The button `getMonthDays` renders for one cell of the grid. -/
def dayButton (startDate endDate : Option DayObj) (maxDate : Day) (day : Option Day) : Button :=
  let text : Option Int :=
    match day with
    | some d => if d.date = 0 then none else some d.date
    | none => none
  { date := text
    classList :=
      ["mth-d"] ++ (if text.isNone then ["opc-0"] else []) ++
        (if isSelected startDate endDate day then ["selected"] else []) ++
        (if isWithinRange startDate endDate day then ["in-range"] else []) ++
        (if getDisabledState maxDate day then ["disabled"] else []) }

/-- Local function `handleClick(e)` of the grid of `calendar`, for a click on `button`. -/
def handleClick (env : Env) (calendar : Calendar) (p : DateRangePicker) (button : Button) :
    Except String DateRangePicker :=
  if button.classList.contains "disabled" || button.classList.contains "opc-0" then .ok p
  else
    match button.date with
    | some date =>
      if button.classList.contains "mth-d" then
        p.setDateRange (calendar.month.getDay env date)
      else .ok p
    | none => .ok p

/-! ## Runs of the picker -/

/-- The user actions that write the selection. -/
inductive UserAction where
  | pick (day : Day)
  | quickOption (option : String) (now1 now2 : Int)
  | footerClear
  | closeModal
  | clearFilter (now : Int)
deriving DecidableEq, Repr

/-- The second read of the clock of a quick option is not on an earlier local day than the
first one. -/
def UserAction.clockForward (env : Env) : UserAction → Bool
  | .quickOption _ now1 now2 =>
    decide (ES.Day (ES.LocalTime env.tz now1) ≤ ES.Day (ES.LocalTime env.tz now2))
  | _ => true

/-- One action: `setDateRange(day)`, `setCustomDates(option)`, the footer button `clear`,
`closeModal()`, `clearFilter(e)`. -/
def DateRangePicker.step (env : Env) (p : DateRangePicker) :
    UserAction → Except String DateRangePicker
  | .pick day => p.setDateRange (.valid day)
  | .quickOption option now1 now2 => .ok (p.setCustomDates env now1 now2 option)
  | .footerClear => .ok (p.handleCTA env "clear").1
  | .closeModal => .ok (p.closeModal env)
  | .clearFilter now => .ok (p.clearFilter env now)

/-- A sequence of actions, stopping at the first exception. -/
def DateRangePicker.run (env : Env) (p : DateRangePicker) :
    List UserAction → Except String DateRangePicker
  | [] => .ok p
  | a :: as =>
    match p.step env a with
    | .ok q => q.run env as
    | .error e => .error e

/-- A click on one of the two arrows of the calendar header. -/
inductive Nav where
  | previous
  | next
deriving DecidableEq, Repr

/-- A sequence of clicks on the arrows: `moveToPreviousMonth()` and `moveToNextMonth()`. -/
def DateRangePicker.navigate (env : Env) (p : DateRangePicker) : List Nav → DateRangePicker
  | [] => p
  | .previous :: ns => (p.moveToPreviousMonth env).navigate env ns
  | .next :: ns => (p.moveToNextMonth env).navigate env ns

/-- The calendar month before month `m` of year `y`. -/
def monthBefore (ym : Int × Int) : Int × Int :=
  if ym.2 = 1 then (ym.1 - 1, 12) else (ym.1, ym.2 - 1)

/-- The calendar month after month `m` of year `y`. -/
def monthAfter (ym : Int × Int) : Int × Int :=
  if ym.2 = 12 then (ym.1 + 1, 1) else (ym.1, ym.2 + 1)

/-- Length of month `m` (1..12) of year `y` in the Gregorian calendar: the number of days from
its first day to the first day of the next month. -/
def gregorianMonthLength (y m : Int) : Int :=
  ES.MakeDay (monthAfter (y, m)).1 ((monthAfter (y, m)).2 - 1) 1 - ES.MakeDay y (m - 1) 1

/-- The value of a string of decimal digits. -/
def digitsValue (ds : List Char) : Int :=
  ds.foldl (fun n c => 10 * n + ((c.toNat : Int) - 48)) 0

/-- The time value `new Date(Number(s)).getTime()` for the strings used in the examples: the
empty string is 0, a decimal integer with an optional sign is itself within the range of
time values and NaN beyond it, and any other string is read as NaN (the other numeric
literals of JavaScript are not covered). -/
def decimalNumber (s : String) : Option Int :=
  match s.data with
  | [] => some 0
  | '-' :: ds =>
    if ds ≠ [] ∧ ds.all Char.isDigit then ES.TimeClip (-digitsValue ds) else none
  | '+' :: ds => if ds ≠ [] ∧ ds.all Char.isDigit then ES.TimeClip (digitsValue ds) else none
  | ds => if ds.all Char.isDigit then ES.TimeClip (digitsValue ds) else none

/-- A host for examples: UTC, English names, decimal integers as numbers. -/
def Env.utc : Env := ⟨0, fun _ => Lang.en, decimalNumber⟩

/-! ## Predicates on the state -/

/-- The invariant of the selection: if `endDate` is set then `startDate` is set and
`startDate.timestamp <= endDate.timestamp`. -/
def selectionOrdered (p : DateRangePicker) : Bool :=
  match p.startDate, p.endDate with
  | _, none => true
  | some s, some e => numLe s.timestamp e.timestamp
  | none, some _ => false

/-- The states the user actions can reach: the label attribute is empty, and the selection
is empty, or a valid start alone, or two valid days in order. -/
def wellFormed (p : DateRangePicker) : Bool :=
  decide (p.dateRange = "") &&
    match p.startDate, p.endDate with
    | none, none => true
    | some (.valid _), none => true
    | some (.valid s), some (.valid e) => decide (s.timestamp ≤ e.timestamp)
    | _, _ => false

/-- The selection of a run that ended without exception. -/
def selectionOf (r : Except String DateRangePicker) : Option (Option DayObj × Option DayObj) :=
  r.toOption.map (fun q => (q.startDate, q.endDate))

/-- March 5th, 2024 (UTC, English). -/
def D5 : Day := Day.new Env.utc (ES.newDate 0 2024 2 5) "en"

/-- March 7th, 2024. -/
def D7 : Day := Day.new Env.utc (ES.newDate 0 2024 2 7) "en"

/-- March 10th, 2024. -/
def D10 : Day := Day.new Env.utc (ES.newDate 0 2024 2 10) "en"

/-- March 20th, 2024. -/
def D20 : Day := Day.new Env.utc (ES.newDate 0 2024 2 20) "en"

/-- A picker created on March 15th, 2024 at noon, with `maxDate` at that instant. -/
def picker0 : DateRangePicker := DateRangePicker.new Env.utc (ES.newDate 0 2024 2 15 12) "en"

/-- The two panes are one month apart: the cursor of `calendarLeft` is at the calendar month
before the one of `calendarRight`, whose month number is in 1..12. -/
def panesApart (p : DateRangePicker) : Bool :=
  decide ((p.calendarLeft.year, p.calendarLeft.month.number) =
      monthBefore (p.calendarRight.year, p.calendarRight.month.number)) &&
    decide (1 ≤ p.calendarRight.month.number) && decide (p.calendarRight.month.number ≤ 12)

/-- March 2024 (UTC, English). -/
def march2024 : Month := Month.new Env.utc (ES.newDate 0 2024 2) "en"

/-- A calendar created for March of the year 50. -/
def calendar50 : Calendar := Calendar.new Env.utc (ES.newDate 0 2024 2 15 12) (some 50) (some 3) "en"

/-- January 1st, 2024 (UTC, English). -/
def jan1 : Day := Day.new Env.utc (ES.newDate 0 2024 0 1) "en"

/-- January 5th, 2024. -/
def jan5 : Day := Day.new Env.utc (ES.newDate 0 2024 0 5) "en"

/-- The picker of March 15th, 2024 with its modal open and January 1st to 5th selected. -/
def pickerJan : DateRangePicker :=
  { picker0 with
    startDate := some (.valid jan1), endDate := some (.valid jan5), modalHidden := false }

/-- No character of the list is one of the letters `Y`, `W`, `D`, `M` of the tokens of
`format`. -/
def noToken (l : List Char) : Bool :=
  l.all (fun c => c != 'Y' && c != 'W' && c != 'D' && c != 'M')

/-- A calendar created for January 2024. -/
def calendarJan : Calendar :=
  Calendar.new Env.utc (ES.newDate 0 2024 2 15 12) (some 2024) (some 1) "en"

/-- A calendar created for November 2024. -/
def calendarNov : Calendar :=
  Calendar.new Env.utc (ES.newDate 0 2024 2 15 12) (some 2024) (some 11) "en"

/-- December 31st, 1969 (UTC, English): its timestamp is negative. -/
def dec31 : Day := Day.new Env.utc (ES.newDate 0 1969 11 31) "en"

/-- January 2nd, 1970. -/
def jan2 : Day := Day.new Env.utc (ES.newDate 0 1970 0 2) "en"

/-- The selection of a picker. -/
def DateRangePicker.selection (p : DateRangePicker) : Option DayObj × Option DayObj :=
  (p.startDate, p.endDate)

/-- The timestamps of the selection of a picker. -/
def DateRangePicker.timestamps (p : DateRangePicker) : Option (Option Int) × Option (Option Int) :=
  (p.startDate.map DayObj.timestamp, p.endDate.map DayObj.timestamp)

/-- The year, month number and day of the month of a `Day` object, `none` for the `Day` of an
Invalid Date. -/
def DayObj.ymd : DayObj → Option (Int × Int × Int)
  | .valid d => some (d.year, d.monthNumber, d.date)
  | .invalid => none

/-- March of the year 50, built from a date of that year. -/
def march50 : Month := Month.new Env.utc (ES.MakeDate (ES.MakeDay 50 2 1) 0) "en"

/-- The month each pane shows has the year that `new Date(year, month)` reads from the year
field of its cursor. -/
def panesShown (p : DateRangePicker) : Bool :=
  decide (p.calendarLeft.month.year = ES.MakeFullYear p.calendarLeft.year) &&
    decide (p.calendarRight.month.year = ES.MakeFullYear p.calendarRight.year)

/-! # Theorems -/

open ES DateRangePicker

namespace ES

/-! ## Date arithmetic -/

theorem DayFromYear_succ (y : Int) : DayFromYear (y + 1) = DayFromYear y + DaysInYear y := by
  unfold DayFromYear DaysInYear
  split_ifs <;> omega

theorem DayFromYear_lt {a b : Int} (h : a < b) : DayFromYear a < DayFromYear b := by
  unfold DayFromYear; omega

/-- The year of a day is the largest one that starts no later than the day. -/
theorem YearFromDay_spec (d : Int) :
    DayFromYear (YearFromDay d) ≤ d ∧ d < DayFromYear (YearFromDay d + 1) := by
  unfold YearFromDay
  simp only
  generalize hy : 1970 + (400 * d) / 146097 = y
  have hlo : 146097 * (y - 1970) ≤ 400 * d := by omega
  have hhi : 400 * d < 146097 * (y - 1970) + 146097 := by omega
  split_ifs with h1 h2
  · rw [sub_add_cancel]
    refine ⟨?_, h1⟩
    unfold DayFromYear at *
    omega
  · refine ⟨h2, ?_⟩
    unfold DayFromYear at *
    have e : y + 1 + 1 = y + 2 := by ring
    rw [e]
    omega
  · omega

theorem YearFromDay_unique (d y : Int) (h1 : DayFromYear y ≤ d) (h2 : d < DayFromYear (y + 1)) :
    YearFromDay d = y := by
  obtain ⟨a, b⟩ := YearFromDay_spec d
  by_contra hne
  rcases lt_or_gt_of_ne hne with h | h
  · have : DayFromYear (YearFromDay d + 1) ≤ DayFromYear y := by
      rcases eq_or_lt_of_le (show YearFromDay d + 1 ≤ y by omega) with e | e
      · rw [e]
      · exact le_of_lt (DayFromYear_lt e)
    omega
  · have : DayFromYear (y + 1) ≤ DayFromYear (YearFromDay d) := by
      rcases eq_or_lt_of_le (show y + 1 ≤ YearFromDay d by omega) with e | e
      · rw [e]
      · exact le_of_lt (DayFromYear_lt e)
    omega

theorem leapFlag_cases (y : Int) :
    (leapFlag y = 0 ∧ DaysInYear y = 365) ∨ (leapFlag y = 1 ∧ DaysInYear y = 366) := by
  unfold leapFlag DaysInYear
  split_ifs <;> simp_all

theorem Day_MakeDate (d time : Int) (h0 : 0 ≤ time) (h1 : time < msPerDay) :
    Day (MakeDate d time) = d := by
  unfold Day MakeDate msPerDay at *
  omega

theorem TimeWithinDay_MakeDate (d time : Int) (h0 : 0 ≤ time) (h1 : time < msPerDay) :
    TimeWithinDay (MakeDate d time) = time := by
  unfold TimeWithinDay MakeDate msPerDay at *
  omega

theorem TimeWithinDay_range (t : Int) : 0 ≤ TimeWithinDay t ∧ TimeWithinDay t < msPerDay := by
  unfold TimeWithinDay msPerDay
  omega

theorem LocalTime_UTC (tz t : Int) : LocalTime tz (UTC tz t) = t := by
  unfold LocalTime UTC
  omega

theorem DayWithinYear_range (t : Int) :
    0 ≤ DayWithinYear t ∧ DayWithinYear t < DaysInYear (YearFromTime t) := by
  obtain ⟨a, b⟩ := YearFromDay_spec (Day t)
  rw [DayFromYear_succ] at b
  unfold DayWithinYear YearFromTime
  omega

theorem MonthFromTime_range (t : Int) : 0 ≤ MonthFromTime t ∧ MonthFromTime t ≤ 11 := by
  unfold MonthFromTime monthOfYearDay
  omega

/-- `MakeDay` on a month index in `0..11`. -/
theorem MakeDay_eq (y m dt : Int) (h0 : 0 ≤ m) (h1 : m ≤ 11) :
    MakeDay y m dt = DayFromYear y + monthStart m (leapFlag y) + dt - 1 := by
  unfold MakeDay
  have e1 : m / 12 = 0 := by omega
  have e2 : m % 12 = m := by omega
  simp only [e1, e2, add_zero]

/-- `MakeDay` normalises its month index into the year. -/
theorem MakeDay_normalize (y m dt : Int) : MakeDay y m dt = MakeDay (y + m / 12) (m % 12) dt := by
  have h0 : 0 ≤ m % 12 := by omega
  have h1 : m % 12 ≤ 11 := by omega
  rw [MakeDay_eq _ _ _ h0 h1]
  rfl

/-- The day of the month counts the days since the start of the month. -/
theorem monthStart_add_date (t : Int) :
    monthStart (MonthFromTime t) (InLeapYear t) + DateFromTime t - 1 = DayWithinYear t := by
  unfold DateFromTime
  omega

/-- Rebuilding a day number from the fields of a time value, with another day of the month. -/
theorem MakeDay_fields (t dt : Int) :
    MakeDay (YearFromTime t) (MonthFromTime t) dt = Day t - DateFromTime t + dt := by
  obtain ⟨h0, h1⟩ := MonthFromTime_range t
  rw [MakeDay_eq _ _ _ h0 h1]
  have h := monthStart_add_date t
  unfold InLeapYear at h
  unfold DayWithinYear at h
  omega

theorem DateFromTime_range (t : Int) :
    1 ≤ DateFromTime t ∧ DateFromTime t ≤ DaysInMonth (MonthFromTime t) (InLeapYear t) := by
  obtain ⟨a, b⟩ := DayWithinYear_range t
  have hl := leapFlag_cases (YearFromTime t)
  unfold DateFromTime MonthFromTime InLeapYear
  generalize DayWithinYear t = w at *
  generalize leapFlag (YearFromTime t) = l at *
  unfold monthOfYearDay monthStart DaysInMonth
  omega

/-- The fields of a day built by `MakeDay` from a month in `0..11` and a day of that month. -/
theorem fields_of_MakeDay (t y m dt : Int) (h0 : 0 ≤ m) (h1 : m ≤ 11) (h2 : 1 ≤ dt)
    (h3 : dt ≤ DaysInMonth m (leapFlag y)) (ht : Day t = MakeDay y m dt) :
    YearFromTime t = y ∧ MonthFromTime t = m ∧ DateFromTime t = dt := by
  rw [MakeDay_eq _ _ _ h0 h1] at ht
  have hl := leapFlag_cases y
  have hw : 0 ≤ monthStart m (leapFlag y) + dt - 1 ∧
      monthStart m (leapFlag y) + dt - 1 < DaysInYear y := by
    revert h3
    generalize leapFlag y = l at *
    unfold monthStart DaysInMonth
    omega
  have hy : YearFromTime t = y := by
    unfold YearFromTime
    apply YearFromDay_unique
    · omega
    · rw [DayFromYear_succ]; omega
  have hd : DayWithinYear t = monthStart m (leapFlag y) + dt - 1 := by
    unfold DayWithinYear
    rw [hy]; omega
  have hm : MonthFromTime t = m := by
    unfold MonthFromTime InLeapYear
    rw [hy, hd]
    revert h3
    generalize leapFlag y = l at *
    unfold monthOfYearDay monthStart DaysInMonth
    omega
  refine ⟨hy, hm, ?_⟩
  unfold DateFromTime InLeapYear
  rw [hm, hy, hd]
  omega

end ES

namespace ES

theorem Day_mul (d : Int) : Day (d * msPerDay) = d ∧ TimeWithinDay (d * msPerDay) = 0 := by
  unfold Day TimeWithinDay msPerDay
  omega

theorem LocalTime_setHours (tz t h mi s ms : Int) :
    LocalTime tz (setHours tz t h mi s ms) =
      MakeDate (Day (LocalTime tz t)) (MakeTime h mi s ms) := by
  unfold setHours
  rw [LocalTime_UTC]

theorem monthStart_bounds (m l : Int) (hl : 0 ≤ l) :
    0 ≤ monthStart m l ∧ monthStart m l ≤ 334 + l := by
  unfold monthStart
  omega

/-- The days before a month grow with the month. -/
theorem monthStart_sub_le (m k l : Int) (hk : 0 ≤ k) (hl : 0 ≤ l) :
    monthStart (m - k) l ≤ monthStart m l := by
  obtain ⟨b0, b1⟩ := monthStart_bounds (m - k) l hl
  have h : m ≤ 0 ∨ m = 1 ∨ m = 2 ∨ m = 3 ∨ m = 4 ∨ m = 5 ∨ m = 6 ∨ m = 7 ∨ m = 8 ∨ m = 9 ∨
      m = 10 ∨ 11 ≤ m := by omega
  rcases h with h | h | h | h | h | h | h | h | h | h | h | h
  · have e1 : monthStart m l = 0 := by unfold monthStart; omega
    have e2 : monthStart (m - k) l = 0 := by unfold monthStart; omega
    omega
  all_goals first
    | (subst h
       generalize hv : monthStart (_ - k) l = v at *
       unfold monthStart at hv ⊢
       omega)
    | (have e1 : monthStart m l = 334 + l := by unfold monthStart; omega
       omega)

/-- Going back up to twelve months gives an earlier day. -/
theorem MakeDay_sub_month_le (y m k d : Int) (h0 : 0 ≤ m) (h1 : m ≤ 11) (hk0 : 0 ≤ k)
    (hk1 : k ≤ 12) : MakeDay y (m - k) d ≤ MakeDay y m d := by
  have hl := leapFlag_cases y
  by_cases hkm : k ≤ m
  · rw [MakeDay_eq _ _ _ (by omega) (by omega), MakeDay_eq _ _ _ h0 h1]
    have := monthStart_sub_le m k (leapFlag y) hk0 (by omega)
    omega
  · rw [MakeDay_normalize y (m - k)]
    have e1 : (m - k) / 12 = -1 := by omega
    have e2 : (m - k) % 12 = m - k + 12 := by omega
    rw [e1, e2, MakeDay_eq _ _ _ (by omega) (by omega), MakeDay_eq _ _ _ h0 h1]
    have hs := DayFromYear_succ (y + -1)
    have e3 : y + -1 + 1 = y := by ring
    rw [e3] at hs
    have hl' := leapFlag_cases (y + -1)
    have b := monthStart_bounds (m - k + 12) (leapFlag (y + -1)) (by omega)
    have b' := monthStart_bounds m (leapFlag y) (by omega)
    omega

/-- The same day of the same month one year earlier is an earlier day. -/
theorem MakeDay_pred_year_le (y m d : Int) (h0 : 0 ≤ m) (h1 : m ≤ 11) :
    MakeDay (y - 1) m d ≤ MakeDay y m d := by
  rw [MakeDay_eq _ _ _ h0 h1, MakeDay_eq _ _ _ h0 h1]
  have hs := DayFromYear_succ (y - 1)
  rw [sub_add_cancel] at hs
  have hl := leapFlag_cases y
  have hl' := leapFlag_cases (y - 1)
  generalize leapFlag y = l at *
  generalize leapFlag (y - 1) = l' at *
  have e : monthStart m l' ≤ monthStart m l + 1 := by
    unfold monthStart
    omega
  omega

end ES

/-- The local time of the two dates of `getCustomDates`: both are at midnight; the end is the
day of the second read of the clock, and the start is the day `MakeDay` builds for the
option from the day of the first read. -/
theorem getCustomDates_local (env : Env) (now1 now2 : Int) (option : String) :
    LocalTime env.tz (getCustomDates env now1 now2 option).2 =
        Day (LocalTime env.tz now2) * msPerDay ∧
    LocalTime env.tz (getCustomDates env now1 now2 option).1 =
      (if option = "24hour" then Day (LocalTime env.tz now1)
       else if option = "week" then Day (LocalTime env.tz now1) - 7
       else if option = "30days" then Day (LocalTime env.tz now1) - 30
       else if option = "3months" then
         MakeDay (YearFromTime (Day (LocalTime env.tz now1) * msPerDay))
           (MonthFromTime (Day (LocalTime env.tz now1) * msPerDay) - 3)
           (DateFromTime (Day (LocalTime env.tz now1) * msPerDay))
       else if option = "6months" then
         MakeDay (YearFromTime (Day (LocalTime env.tz now1) * msPerDay))
           (MonthFromTime (Day (LocalTime env.tz now1) * msPerDay) - 6)
           (DateFromTime (Day (LocalTime env.tz now1) * msPerDay))
       else if option = "1year" then
         MakeDay (YearFromTime (Day (LocalTime env.tz now1) * msPerDay) - 1)
           (MonthFromTime (Day (LocalTime env.tz now1) * msPerDay))
           (DateFromTime (Day (LocalTime env.tz now1) * msPerDay))
       else Day (LocalTime env.tz now1)) * msPerDay := by
  have h0 : ∀ now, LocalTime env.tz (setHours env.tz now 0 0 0 0) =
      Day (LocalTime env.tz now) * msPerDay := by
    intro now
    rw [LocalTime_setHours]
    unfold MakeDate MakeTime
    omega
  obtain ⟨hd, ht⟩ := Day_mul (Day (LocalTime env.tz now1))
  refine ⟨h0 now2, ?_⟩
  simp only [getCustomDates]
  split_ifs
  · exact h0 now1
  · simp only [setDate, getDate, h0, LocalTime_UTC, MakeDay_fields, hd, ht, MakeDate, add_zero]
    congr 1
    omega
  · simp only [setDate, getDate, h0, LocalTime_UTC, MakeDay_fields, hd, ht, MakeDate, add_zero]
    congr 1
    omega
  · simp only [setMonth, getMonth, h0, LocalTime_UTC, ht, MakeDate, add_zero]
  · simp only [setMonth, getMonth, h0, LocalTime_UTC, ht, MakeDate, add_zero]
  · simp only [setFullYear, getFullYear, h0, LocalTime_UTC, ht, MakeDate, add_zero]
  · exact h0 now1

/-- When the second read of the clock is not on an earlier local day than the first one, the
start of a quick option is not after its end. -/
theorem getCustomDates_le (env : Env) (now1 now2 : Int) (option : String)
    (hday : Day (LocalTime env.tz now1) ≤ Day (LocalTime env.tz now2)) :
    (getCustomDates env now1 now2 option).1 ≤ (getCustomDates env now1 now2 option).2 := by
  obtain ⟨h2, h1⟩ := getCustomDates_local env now1 now2 option
  have key : LocalTime env.tz (getCustomDates env now1 now2 option).1 ≤
      LocalTime env.tz (getCustomDates env now1 now2 option).2 := by
    rw [h1, h2]
    obtain ⟨hd, -⟩ := Day_mul (Day (LocalTime env.tz now1))
    obtain ⟨l, hl⟩ : ∃ l, l = Day (LocalTime env.tz now1) * msPerDay := ⟨_, rfl⟩
    rw [← hl] at hd ⊢
    obtain ⟨m0, m1⟩ := MonthFromTime_range l
    have hf := MakeDay_fields l (DateFromTime l)
    have h3 := MakeDay_sub_month_le (YearFromTime l) (MonthFromTime l) 3 (DateFromTime l) m0 m1
      (by omega) (by omega)
    have h6 := MakeDay_sub_month_le (YearFromTime l) (MonthFromTime l) 6 (DateFromTime l) m0 m1
      (by omega) (by omega)
    have hy := MakeDay_pred_year_le (YearFromTime l) (MonthFromTime l) (DateFromTime l) m0 m1
    unfold msPerDay at hl ⊢
    split_ifs <;> omega
  unfold LocalTime at key
  omega

/-! ## The selection state machine -/

theorem wellFormed_iff (p : DateRangePicker) :
    wellFormed p = true ↔
      p.dateRange = "" ∧
        ((p.startDate = none ∧ p.endDate = none) ∨
          (∃ s, p.startDate = some (.valid s) ∧ p.endDate = none) ∨
          (∃ s e, p.startDate = some (.valid s) ∧ p.endDate = some (.valid e) ∧
            s.timestamp ≤ e.timestamp)) := by
  unfold wellFormed
  rcases hs : p.startDate with _ | (s | _) <;> rcases he : p.endDate with _ | (e | _) <;> simp

theorem selectionOrdered_of_wellFormed (p : DateRangePicker) (h : wellFormed p = true) :
    selectionOrdered p = true := by
  obtain ⟨-, h | ⟨s, hs, he⟩ | ⟨s, e, hs, he, hle⟩⟩ := (wellFormed_iff p).1 h
  · simp [selectionOrdered, h.1, h.2]
  · simp [selectionOrdered, hs, he]
  · simp [selectionOrdered, hs, he, numLe, DayObj.timestamp, hle]

/-- A pick of a valid day keeps the state well formed, and raises no exception. -/
theorem setDateRange_wellFormed (p : DateRangePicker) (day : Day) (h : wellFormed p = true) :
    ∃ q, p.setDateRange (.valid day) = .ok q ∧ wellFormed q = true := by
  obtain ⟨hd, h | ⟨s, hs, he⟩ | ⟨s, e, hs, he, hle⟩⟩ := (wellFormed_iff p).1 h
  · have e : p.setDateRange (.valid day) = .ok { p with startDate := some (.valid day) } := by
      simp [setDateRange, h.1]
    refine ⟨_, e, ?_⟩
    rw [wellFormed_iff]
    exact ⟨hd, Or.inr (Or.inl ⟨day, rfl, h.2⟩)⟩
  · by_cases hc : s.timestamp ≤ day.timestamp
    · have e : p.setDateRange (.valid day) = .ok { p with endDate := some (.valid day) } := by
        simp [setDateRange, hs, he, numGe, DayObj.timestamp, hc]
      refine ⟨_, e, ?_⟩
      rw [wellFormed_iff]
      exact ⟨hd, Or.inr (Or.inr ⟨s, day, hs, rfl, hc⟩)⟩
    · have hc' : day.timestamp < s.timestamp := by omega
      have e : p.setDateRange (.valid day) =
          .ok { p with endDate := some (.valid s), startDate := some (.valid day) } := by
        simp [setDateRange, hs, he, numGe, numLt, DayObj.timestamp, hc, hc']
      refine ⟨_, e, ?_⟩
      rw [wellFormed_iff]
      exact ⟨hd, Or.inr (Or.inr ⟨day, s, rfl, rfl, by omega⟩)⟩
  · by_cases hc : day.timestamp ≤ e.timestamp
    · have e' : p.setDateRange (.valid day) = .ok { p with startDate := some (.valid day) } := by
        simp [setDateRange, hs, he, numLe, DayObj.timestamp, hc]
      refine ⟨_, e', ?_⟩
      rw [wellFormed_iff]
      exact ⟨hd, Or.inr (Or.inr ⟨day, e, rfl, he, hc⟩)⟩
    · have e' : p.setDateRange (.valid day) = .ok { p with endDate := some (.valid day) } := by
        simp [setDateRange, hs, he, numLe, DayObj.timestamp, hc]
      refine ⟨_, e', ?_⟩
      rw [wellFormed_iff]
      exact ⟨hd, Or.inr (Or.inr ⟨s, day, hs, rfl, by omega⟩)⟩

theorem preFillSelectedState_empty (env : Env) (p : DateRangePicker) (h : p.dateRange = "") :
    preFillSelectedState env p = p := by
  simp [preFillSelectedState, h, split, splitChars]

/-- With an empty label attribute, `closeModal` leaves the selection empty. -/
theorem closeModal_cleared (env : Env) (p : DateRangePicker) (h : p.dateRange = "") :
    (closeModal env p).startDate = none ∧ (closeModal env p).endDate = none ∧
      (closeModal env p).dateRange = "" := by
  unfold closeModal toggleModal
  rw [preFillSelectedState_empty env { p with startDate := none, endDate := none } h]
  split <;> exact ⟨rfl, rfl, h⟩

/-- Every user action whose second read of the clock is not on an earlier local day than the
first one keeps the state well formed, and raises no exception. -/
theorem step_wellFormed (env : Env) (p : DateRangePicker) (a : UserAction)
    (h : wellFormed p = true) (hc : a.clockForward env = true) :
    ∃ q, p.step env a = .ok q ∧ wellFormed q = true := by
  have hd : p.dateRange = "" := ((wellFormed_iff p).1 h).1
  cases a with
  | pick day => exact setDateRange_wellFormed p day h
  | quickOption option now1 now2 =>
    have hle : Day (LocalTime env.tz now1) ≤ Day (LocalTime env.tz now2) := by
      simpa [UserAction.clockForward] using hc
    refine ⟨_, rfl, ?_⟩
    rw [wellFormed_iff]
    exact ⟨hd, Or.inr (Or.inr ⟨_, _, rfl, rfl, getCustomDates_le env now1 now2 option hle⟩)⟩
  | footerClear =>
    refine ⟨_, rfl, ?_⟩
    obtain ⟨-, h' | ⟨s, hs, he⟩ | ⟨s, e, hs, he, hle⟩⟩ := (wellFormed_iff p).1 h
    · simpa [handleCTA, h'.1, h'.2] using h
    · simpa [handleCTA, hs, he] using h
    · rw [wellFormed_iff]
      simp [handleCTA, hs, he, hd]
  | closeModal =>
    refine ⟨_, rfl, ?_⟩
    rw [wellFormed_iff]
    obtain ⟨h1, h2, h3⟩ := closeModal_cleared env p hd
    exact ⟨h3, Or.inl ⟨h1, h2⟩⟩
  | clearFilter now =>
    refine ⟨_, rfl, ?_⟩
    rw [wellFormed_iff]
    exact ⟨rfl, Or.inl ⟨rfl, rfl⟩⟩

theorem run_wellFormed (env : Env) (actions : List UserAction)
    (hc : ∀ a ∈ actions, a.clockForward env = true) :
    ∀ p : DateRangePicker, wellFormed p = true →
      ∃ q, p.run env actions = .ok q ∧ wellFormed q = true := by
  induction actions with
  | nil => exact fun p h => ⟨p, rfl, h⟩
  | cons a as ih =>
    intro p h
    obtain ⟨q, hq, hw⟩ := step_wellFormed env p a h (hc a (List.mem_cons_self _ _))
    obtain ⟨r, hr, hw'⟩ := ih (fun b hb => hc b (List.mem_cons_of_mem _ hb)) q hw
    exact ⟨r, by simp [DateRangePicker.run, hq, hr], hw'⟩

theorem new_wellFormed (env : Env) (now : Int) (lang : String) (maxDate : Option Int)
    (format : Option String) (customOption : Option (List String)) :
    wellFormed (DateRangePicker.new env now lang maxDate format customOption) = true := by
  rw [wellFormed_iff]
  exact ⟨rfl, Or.inl ⟨rfl, rfl⟩⟩

/-! ## Claims on the selection -/

/-- C1: `setDateRange(day)` follows the transition function of the selection.  From the empty
selection the day becomes the start; with a start alone, a day not before it becomes the
end and an earlier day becomes the start while the old start becomes the end; with both
dates set, a day not after the end replaces the start and a later day replaces the end, so
the selection stays complete.  The other fields of the picker are untouched. -/
theorem setDateRange_transition (p : DateRangePicker) (day s e : Day) :
    setDateRange { p with startDate := none, endDate := none } (.valid day) =
        .ok { p with startDate := some (.valid day), endDate := none } ∧
      (s.timestamp ≤ day.timestamp →
        setDateRange { p with startDate := some (.valid s), endDate := none } (.valid day) =
          .ok { p with startDate := some (.valid s), endDate := some (.valid day) }) ∧
      (day.timestamp < s.timestamp →
        setDateRange { p with startDate := some (.valid s), endDate := none } (.valid day) =
          .ok { p with startDate := some (.valid day), endDate := some (.valid s) }) ∧
      (day.timestamp ≤ e.timestamp →
        setDateRange { p with startDate := some (.valid s), endDate := some (.valid e) }
            (.valid day) =
          .ok { p with startDate := some (.valid day), endDate := some (.valid e) }) ∧
      (e.timestamp < day.timestamp →
        setDateRange { p with startDate := some (.valid s), endDate := some (.valid e) }
            (.valid day) =
          .ok { p with startDate := some (.valid s), endDate := some (.valid day) }) := by
  refine ⟨rfl, ?_, ?_, ?_, ?_⟩
  · intro h
    simp [setDateRange, DayObj.timestamp, numGe, h]
  · intro h
    have h' : ¬ s.timestamp ≤ day.timestamp := by omega
    simp [setDateRange, DayObj.timestamp, numGe, numLt, h, h']
  · intro h
    simp [setDateRange, DayObj.timestamp, numLe, h]
  · intro h
    have h' : ¬ day.timestamp ≤ e.timestamp := by omega
    simp [setDateRange, DayObj.timestamp, numLe, h']

/-- The transitions of C1 on March 5th, 7th, 10th and 20th, 2024: the forward and the backward
second pick both give (5th, 10th); a third pick of the 7th gives (7th, 10th) and one of the
20th gives (5th, 20th). -/
theorem setDateRange_transition_witness :
    (D5.timestamp ≤ D10.timestamp ∧
        setDateRange { picker0 with startDate := some (.valid D5), endDate := none }
            (.valid D10) =
          .ok { picker0 with startDate := some (.valid D5), endDate := some (.valid D10) }) ∧
      (D5.timestamp < D10.timestamp ∧
        setDateRange { picker0 with startDate := some (.valid D10), endDate := none }
            (.valid D5) =
          .ok { picker0 with startDate := some (.valid D5), endDate := some (.valid D10) }) ∧
      selectionOf (picker0.run Env.utc [.pick D5, .pick D10]) =
        some (some (.valid D5), some (.valid D10)) ∧
      selectionOf (picker0.run Env.utc [.pick D10, .pick D5]) =
        some (some (.valid D5), some (.valid D10)) ∧
      selectionOf (picker0.run Env.utc [.pick D5, .pick D10, .pick D7]) =
        some (some (.valid D7), some (.valid D10)) ∧
      selectionOf (picker0.run Env.utc [.pick D5, .pick D10, .pick D20]) =
        some (some (.valid D5), some (.valid D20)) :=
  ⟨⟨by decide, (setDateRange_transition picker0 D10 D5 D10).2.1 (by decide)⟩,
    ⟨by decide, (setDateRange_transition picker0 D5 D10 D10).2.2.1 (by decide)⟩,
    by decide, by decide, by decide, by decide⟩

/-- C2, as stated, fails when the second read of the clock of `getCustomDates` falls on an
earlier local day than the first one: with a first read at March 16th, 2024 00:00:00.000
and a second one a millisecond earlier, the quick option `24hour` sets a start (March 16th)
after the end (March 15th). -/
theorem quickOption_clock_backwards :
    selectionOf (picker0.run Env.utc [.quickOption "24hour" 1710547200000 1710547199999]) =
        some (some (.valid (Day.new Env.utc 1710547200000 "en")),
          some (.valid (Day.new Env.utc 1710460800000 "en"))) ∧
      (picker0.run Env.utc [.quickOption "24hour" 1710547200000 1710547199999]).toOption.map
        selectionOrdered = some false := by
  decide

/-- C2, amended: in every state reached from a new picker by picks of days, quick options
whose second read of the clock in `getCustomDates` is not on an earlier local day than the
first one, the footer button `clear`, `closeModal` and `clearFilter`, no action raises an
exception and, if `endDate` is set, `startDate` is set too and
`startDate.timestamp <= endDate.timestamp`. -/
theorem reachable_selectionOrdered (env : Env) (now : Int) (lang : String)
    (maxDate : Option Int) (format : Option String) (customOption : Option (List String))
    (actions : List UserAction) (hc : ∀ a ∈ actions, a.clockForward env = true) :
    ∃ q, (DateRangePicker.new env now lang maxDate format customOption).run env actions = .ok q ∧
      selectionOrdered q = true := by
  obtain ⟨q, hq, hw⟩ := run_wellFormed env actions hc _
    (new_wellFormed env now lang maxDate format customOption)
  exact ⟨q, hq, selectionOrdered_of_wellFormed q hw⟩

/-- The amended C2 on a run of the picker of March 15th, 2024: a pick, the quick option
`week` read twice at noon, a pick of March 5th, the footer button `clear`. -/
theorem reachable_selectionOrdered_witness :
    (∀ a ∈ [UserAction.pick D10, .quickOption "week" 1710504000000 1710504000000, .pick D5,
        .footerClear], a.clockForward Env.utc = true) ∧
      ∃ q, picker0.run Env.utc [UserAction.pick D10,
          .quickOption "week" 1710504000000 1710504000000, .pick D5, .footerClear] = .ok q ∧
        selectionOrdered q = true :=
  ⟨by decide,
    reachable_selectionOrdered Env.utc (ES.newDate 0 2024 2 15 12) "en" none none none
      [UserAction.pick D10, .quickOption "week" 1710504000000 1710504000000, .pick D5,
        .footerClear] (by decide)⟩

/-- C3, as stated, fails: `setDateRange` itself has no check against `maxDate`.  On the picker
of March 15th, 2024 (its `maxDate`), `setDateRange` of March 20th makes that day the start. -/
theorem setDateRange_beyond_maxDate :
    D20.timestamp > picker0.maxDate.timestamp ∧
      selectionOf (picker0.setDateRange (.valid D20)) = some (some (.valid D20), none) := by
  decide

/-- C3, amended: the bound is kept by the grid.  A day after `maxDate` is rendered with the
class `disabled`, and `handleClick` on that button returns before `setDateRange`: the state
is unchanged and no exception is raised. -/
theorem handleClick_beyond_maxDate (env : Env) (calendar : Calendar) (p : DateRangePicker)
    (day : Day) (h : day.timestamp > p.maxDate.timestamp) :
    (dayButton p.startDate p.endDate p.maxDate (some day)).classList.contains "disabled" = true ∧
      handleClick env calendar p (dayButton p.startDate p.endDate p.maxDate (some day)) =
        .ok p := by
  have hc : (dayButton p.startDate p.endDate p.maxDate (some day)).classList.contains
      "disabled" = true := by
    simp [dayButton, getDisabledState, h]
  refine ⟨hc, ?_⟩
  unfold handleClick
  rw [hc]
  rfl

/-- The amended C3 on March 20th, 2024 against a `maxDate` of March 15th. -/
theorem handleClick_beyond_maxDate_witness :
    D20.timestamp > picker0.maxDate.timestamp ∧
      handleClick Env.utc picker0.calendarRight picker0
          (dayButton picker0.startDate picker0.endDate picker0.maxDate (some D20)) =
        .ok picker0 :=
  ⟨by decide, (handleClick_beyond_maxDate Env.utc picker0.calendarRight picker0 D20
    (by decide)).2⟩

/-! ## Months of the calendar -/

/-- The Gregorian length of a month, by the table of month lengths. -/
theorem gregorianMonthLength_eq (y m : Int) (h1 : 1 ≤ m) (h2 : m ≤ 12) :
    gregorianMonthLength y m = DaysInMonth (m - 1) (leapFlag y) := by
  unfold gregorianMonthLength monthAfter
  have hl := leapFlag_cases y
  by_cases h : m = 12
  · subst h
    have hs := DayFromYear_succ y
    simp only [if_true]
    rw [MakeDay_eq _ _ _ (by omega) (by omega), MakeDay_eq _ _ _ (by omega) (by omega)]
    generalize leapFlag y = l at *
    generalize leapFlag (y + 1) = l'
    have e1 : monthStart (1 - 1) l' = 0 := by unfold monthStart; omega
    have e2 : monthStart (12 - 1) l = 334 + l := by unfold monthStart; omega
    have e3 : DaysInMonth (12 - 1) l = 31 := by unfold DaysInMonth; omega
    omega
  · simp only [if_neg h]
    rw [MakeDay_eq _ _ _ (by omega) (by omega), MakeDay_eq _ _ _ (by omega) (by omega)]
    generalize leapFlag y = l at *
    have e : monthStart (m + 1 - 1) l - monthStart (m - 1) l = DaysInMonth (m - 1) l := by
      have hm : m = 1 ∨ m = 2 ∨ m = 3 ∨ m = 4 ∨ m = 5 ∨ m = 6 ∨ m = 7 ∨ m = 8 ∨ m = 9 ∨
          m = 10 ∨ m = 11 := by omega
      rcases hm with h | h | h | h | h | h | h | h | h | h | h <;>
        (subst h; simp [monthStart, DaysInMonth] <;> omega)
    omega

theorem DaysInMonth_range (m l : Int) (hl : l = 0 ∨ l = 1) :
    28 ≤ DaysInMonth m l ∧ DaysInMonth m l ≤ 31 := by
  unfold DaysInMonth
  omega

/-- The month `k` months before month `m` (1..12) of year `y`. -/
theorem monthBefore_iterate (k : Nat) (y m : Int) (h1 : 1 ≤ m) (h2 : m ≤ 12) :
    monthBefore^[k] (y, m) = (y + (m - 1 - k) / 12, (m - 1 - k) % 12 + 1) := by
  induction k generalizing y m with
  | zero =>
    refine Prod.ext ?_ ?_ <;> simp only [Function.iterate_zero, id_eq] <;> push_cast <;> omega
  | succ k ih =>
    rw [Function.iterate_succ_apply]
    have hs : monthBefore (y, m) = if m = 1 then (y - 1, 12) else (y, m - 1) := rfl
    rw [hs]
    split_ifs with h
    · rw [ih _ _ (by omega) (by omega)]
      refine Prod.ext ?_ ?_ <;> simp only <;> push_cast <;> omega
    · rw [ih _ _ (by omega) (by omega)]
      refine Prod.ext ?_ ?_ <;> simp only <;> push_cast <;> omega

/-- The fields of the local midnight of day `MakeDay y m dt`, for any month index, when the
day of the month exists in the month aimed at. -/
theorem fields_of_MakeDay_any (y m dt : Int) (h2 : 1 ≤ dt)
    (h3 : dt ≤ DaysInMonth (m % 12) (leapFlag (y + m / 12))) :
    YearFromTime (MakeDay y m dt * msPerDay) = y + m / 12 ∧
      MonthFromTime (MakeDay y m dt * msPerDay) = m % 12 ∧
      DateFromTime (MakeDay y m dt * msPerDay) = dt := by
  apply fields_of_MakeDay _ _ _ _ (by omega) (by omega) h2 h3
  rw [(Day_mul _).1, MakeDay_normalize]

/-! ## Claims on the quick options -/

/-- The calendar fields of a time value are those of the midnight of its day. -/
theorem fields_midnight (t : Int) :
    YearFromTime (Day t * msPerDay) = YearFromTime t ∧
      MonthFromTime (Day t * msPerDay) = MonthFromTime t ∧
      DateFromTime (Day t * msPerDay) = DateFromTime t := by
  have h := (Day_mul (Day t)).1
  have hy : YearFromTime (Day t * msPerDay) = YearFromTime t := by
    unfold YearFromTime
    rw [h]
  have hw : DayWithinYear (Day t * msPerDay) = DayWithinYear t := by
    unfold DayWithinYear
    rw [h, hy]
  have hl : InLeapYear (Day t * msPerDay) = InLeapYear t := by
    unfold InLeapYear
    rw [hy]
  have hm : MonthFromTime (Day t * msPerDay) = MonthFromTime t := by
    unfold MonthFromTime
    rw [hw, hl]
  refine ⟨hy, hm, ?_⟩
  unfold DateFromTime
  rw [hw, hl, hm]

/-- C4, as stated, fails when the two reads of the clock of `getCustomDates` fall on two
local days: with a first read at March 15th, 2024 23:59:59.999 and a second one at March
16th 00:00:00.000, `24hour` gives a start on March 15th and an end on March 16th, and `week`
a start on March 8th, eight days before the end. -/
theorem getCustomDates_two_days :
    getCustomDates Env.utc 1710547199999 1710547200000 "24hour" =
        (ES.newDate 0 2024 2 15, ES.newDate 0 2024 2 16) ∧
      getCustomDates Env.utc 1710547199999 1710547200000 "week" =
        (ES.newDate 0 2024 2 8, ES.newDate 0 2024 2 16) ∧
      (getCustomDates Env.utc 1710547199999 1710547200000 "24hour").1 ≠
        (getCustomDates Env.utc 1710547199999 1710547200000 "24hour").2 := by
  decide

/-- C4, amended: when the two reads of the clock of `getCustomDates` fall on the same local
day `today`, the `endDate` is the local midnight of today for every option; the `startDate`
is that same midnight for `24hour`, the local midnight of the day 7 days before today for
`week`, and of the day 30 days before today for `30days` (day numbers count the days of
the calendar, across months and years). -/
theorem getCustomDates_days (env : Env) (now1 now2 today : Int)
    (h1 : Day (LocalTime env.tz now1) = today) (h2 : Day (LocalTime env.tz now2) = today) :
    (∀ option : String,
        Day (LocalTime env.tz (getCustomDates env now1 now2 option).2) = today ∧
          TimeWithinDay (LocalTime env.tz (getCustomDates env now1 now2 option).2) = 0) ∧
      (getCustomDates env now1 now2 "24hour").1 = (getCustomDates env now1 now2 "24hour").2 ∧
      (Day (LocalTime env.tz (getCustomDates env now1 now2 "week").1) = today - 7 ∧
        TimeWithinDay (LocalTime env.tz (getCustomDates env now1 now2 "week").1) = 0) ∧
      (Day (LocalTime env.tz (getCustomDates env now1 now2 "30days").1) = today - 30 ∧
        TimeWithinDay (LocalTime env.tz (getCustomDates env now1 now2 "30days").1) = 0) := by
  refine ⟨fun option => ?_, ?_, ?_, ?_⟩
  · rw [(getCustomDates_local env now1 now2 option).1, h2]
    exact Day_mul _
  · have ha := (getCustomDates_local env now1 now2 "24hour").2
    have hb := (getCustomDates_local env now1 now2 "24hour").1
    simp only [if_true] at ha
    rw [h1] at ha
    rw [h2] at hb
    unfold LocalTime at ha hb
    omega
  · have h := (getCustomDates_local env now1 now2 "week").2
    simp only [String.reduceEq, if_false, if_true] at h
    rw [h, h1]
    exact Day_mul _
  · have h := (getCustomDates_local env now1 now2 "30days").2
    simp only [String.reduceEq, if_false, if_true] at h
    rw [h, h1]
    exact Day_mul _

/-- The example of C4: with both reads on March 15th, 2024 (at noon, UTC) the option `week`
gives March 8th, 2024 00:00:00.000 to March 15th, 2024 00:00:00.000. -/
theorem getCustomDates_days_witness :
    Day (LocalTime Env.utc.tz (ES.newDate 0 2024 2 15 12)) = 19797 ∧
      getCustomDates Env.utc (ES.newDate 0 2024 2 15 12) (ES.newDate 0 2024 2 15 12) "week" =
        (ES.newDate 0 2024 2 8, ES.newDate 0 2024 2 15) ∧
      Day (LocalTime Env.utc.tz (getCustomDates Env.utc (ES.newDate 0 2024 2 15 12)
        (ES.newDate 0 2024 2 15 12) "week").1) = 19797 - 7 :=
  ⟨by decide, by decide,
    (getCustomDates_days Env.utc (ES.newDate 0 2024 2 15 12) (ES.newDate 0 2024 2 15 12) 19797
      (by decide) (by decide)).2.2.1.1⟩

/-- C5, as stated, fails: on May 31st, 2024 the option `3months` asks for February 31st,
which the `Date` object carries over to March 2nd; on August 31st, 2023 `6months` gives
March 3rd, and on February 29th, 2024 `1year` gives March 1st, 2023. -/
theorem getCustomDates_overflow :
    (ES.getMonth 0 (getCustomDates Env.utc (ES.newDate 0 2024 4 31 12) (ES.newDate 0 2024 4 31 12)
          "3months").1 + 1,
        ES.getDate 0 (getCustomDates Env.utc (ES.newDate 0 2024 4 31 12) (ES.newDate 0 2024 4 31 12)
          "3months").1) = (3, 2) ∧
      monthBefore^[3] (2024, 5) = (2024, 2) ∧
      (ES.getMonth 0 (getCustomDates Env.utc (ES.newDate 0 2023 7 31 12) (ES.newDate 0 2023 7 31 12)
          "6months").1 + 1,
        ES.getDate 0 (getCustomDates Env.utc (ES.newDate 0 2023 7 31 12) (ES.newDate 0 2023 7 31 12)
          "6months").1) = (3, 3) ∧
      monthBefore^[6] (2023, 8) = (2023, 2) ∧
      (ES.getMonth 0 (getCustomDates Env.utc (ES.newDate 0 2024 1 29 12) (ES.newDate 0 2024 1 29 12)
          "1year").1 + 1,
        ES.getDate 0 (getCustomDates Env.utc (ES.newDate 0 2024 1 29 12) (ES.newDate 0 2024 1 29 12)
          "1year").1) = (3, 1) ∧
      monthBefore^[12] (2024, 2) = (2023, 2) := by
  decide

/-- C5, amended: for `3months`, `6months` and `1year` (`k` = 3, 6, 12), when today's day of
the month exists in the month `k` months before today's month, the `startDate` of
`getCustomDates` is the local midnight of that day of that month (today is the day of the
first read `now` of the clock, from which the start is built). -/
theorem getCustomDates_months (env : Env) (now now2 : Int) (k : Nat) (option : String)
    (hk : (k = 3 ∧ option = "3months") ∨ (k = 6 ∧ option = "6months") ∨
      (k = 12 ∧ option = "1year"))
    (hd : getDate env.tz now ≤
      gregorianMonthLength
        (monthBefore^[k] (getFullYear env.tz now, getMonth env.tz now + 1)).1
        (monthBefore^[k] (getFullYear env.tz now, getMonth env.tz now + 1)).2) :
    (getFullYear env.tz (getCustomDates env now now2 option).1,
        getMonth env.tz (getCustomDates env now now2 option).1 + 1) =
        monthBefore^[k] (getFullYear env.tz now, getMonth env.tz now + 1) ∧
      getDate env.tz (getCustomDates env now now2 option).1 = getDate env.tz now ∧
      TimeWithinDay (LocalTime env.tz (getCustomDates env now now2 option).1) = 0 := by
  obtain ⟨m0, m1⟩ := MonthFromTime_range (LocalTime env.tz now)
  obtain ⟨d0, -⟩ := DateFromTime_range (LocalTime env.tz now)
  obtain ⟨fy, fm, fd⟩ := fields_midnight (LocalTime env.tz now)
  have hloc := (getCustomDates_local env now now2 option).2
  rw [fy, fm, fd] at hloc
  unfold getFullYear getMonth getDate at *
  rw [monthBefore_iterate k _ _ (by omega) (by omega)] at hd ⊢
  simp only at hd
  rw [gregorianMonthLength_eq _ _ (by omega) (by omega)] at hd
  generalize YearFromTime (LocalTime env.tz now) = Y at *
  generalize MonthFromTime (LocalTime env.tz now) = M at *
  generalize DateFromTime (LocalTime env.tz now) = D at *
  rcases hk with ⟨rfl, rfl⟩ | ⟨rfl, rfl⟩ | ⟨rfl, rfl⟩
  · simp only [String.reduceEq, if_false, if_true] at hloc
    have e1 : (M + 1 - 1 - ((3 : Nat) : Int)) = M - 3 := by push_cast; ring
    rw [e1] at hd ⊢
    have e2 : (M - 3) % 12 + 1 - 1 = (M - 3) % 12 := by ring
    rw [e2] at hd
    obtain ⟨a, b, c⟩ := fields_of_MakeDay_any Y (M - 3) D d0 hd
    rw [hloc, a, b, c]
    exact ⟨rfl, rfl, (Day_mul _).2⟩
  · simp only [String.reduceEq, if_false, if_true] at hloc
    have e1 : (M + 1 - 1 - ((6 : Nat) : Int)) = M - 6 := by push_cast; ring
    rw [e1] at hd ⊢
    have e2 : (M - 6) % 12 + 1 - 1 = (M - 6) % 12 := by ring
    rw [e2] at hd
    obtain ⟨a, b, c⟩ := fields_of_MakeDay_any Y (M - 6) D d0 hd
    rw [hloc, a, b, c]
    exact ⟨rfl, rfl, (Day_mul _).2⟩
  · simp only [String.reduceEq, if_false, if_true] at hloc
    have e1 : (M + 1 - 1 - ((12 : Nat) : Int)) = M - 12 := by push_cast; ring
    rw [e1] at hd ⊢
    have e3 : (M - 12) / 12 = -1 := by omega
    have e4 : (M - 12) % 12 = M := by omega
    have e5 : M / 12 = 0 := by omega
    have e6 : M % 12 = M := by omega
    rw [e3, e4] at hd ⊢
    have e2 : M + 1 - 1 = M := by ring
    rw [e2] at hd
    have hd' : D ≤ DaysInMonth (M % 12) (leapFlag (Y - 1 + M / 12)) := by
      rw [e5, e6, add_zero]
      exact hd
    obtain ⟨a, b, c⟩ := fields_of_MakeDay_any (Y - 1) M D d0 hd'
    rw [hloc, a, b, c, e5, e6]
    refine ⟨?_, rfl, (Day_mul _).2⟩
    refine Prod.ext ?_ rfl
    simp only
    omega

/-- The amended C5 on March 15th, 2024: `3months` gives December 15th, 2023. -/
theorem getCustomDates_months_witness :
    ES.getDate 0 (ES.newDate 0 2024 2 15 12) ≤ gregorianMonthLength 2023 12 ∧
      (ES.getFullYear 0 (getCustomDates Env.utc (ES.newDate 0 2024 2 15 12) (ES.newDate 0 2024 2 15 12)
          "3months").1,
          ES.getMonth 0 (getCustomDates Env.utc (ES.newDate 0 2024 2 15 12) (ES.newDate 0 2024 2 15 12)
          "3months").1 + 1) =
        (2023, 12) ∧
      ES.getDate 0 (getCustomDates Env.utc (ES.newDate 0 2024 2 15 12) (ES.newDate 0 2024 2 15 12)
          "3months").1 = 15 :=
  ⟨by decide,
    (getCustomDates_months Env.utc (ES.newDate 0 2024 2 15 12) (ES.newDate 0 2024 2 15 12) 3
      "3months"
      (Or.inl ⟨rfl, rfl⟩) (by decide)).1.trans (by decide),
    (getCustomDates_months Env.utc (ES.newDate 0 2024 2 15 12) (ES.newDate 0 2024 2 15 12) 3
      "3months"
      (Or.inl ⟨rfl, rfl⟩) (by decide)).2.1.trans (by decide)⟩

/-! ## Claims on `Month` -/

theorem tmod_eq_zero_iff (a b : Int) : Int.tmod a b = 0 ↔ a % b = 0 :=
  ⟨fun h => Int.emod_eq_zero_of_dvd (Int.dvd_of_tmod_eq_zero h),
    fun h => Int.tmod_eq_zero_of_dvd (Int.dvd_of_emod_eq_zero h)⟩

/-- Source `isLeapYear` agrees with the leap years of the `Date` object. -/
theorem isLeapYear_iff (y : Int) :
    (isLeapYear y = true ↔ leapFlag y = 1) ∧
      (isLeapYear y = true ↔ (4 ∣ y ∧ (¬ 100 ∣ y ∨ 400 ∣ y))) := by
  have e : isLeapYear y = true ↔ (if y % 100 = 0 then y % 400 = 0 else y % 4 = 0) := by
    unfold isLeapYear
    simp only [tmod_eq_zero_iff]
    split_ifs <;> simp [*]
  constructor
  · rw [e]
    unfold leapFlag DaysInYear
    split_ifs <;> omega
  · rw [e, Int.dvd_iff_emod_eq_zero, Int.dvd_iff_emod_eq_zero, Int.dvd_iff_emod_eq_zero]
    split_ifs <;> omega

theorem Month_new_fields (env : Env) (t : Int) (lang : String) :
    (Month.new env t lang).number = getMonth env.tz t + 1 ∧
      (Month.new env t lang).year = getFullYear env.tz t ∧
      (Month.new env t lang).lang = lang ∧
      (Month.new env t lang).numberOfDays =
        if getMonth env.tz t + 1 = 2 then
          monthsSize.getD (getMonth env.tz t + 1 - 1).toNat 0 +
            (if isLeapYear (getFullYear env.tz t) then 1 else 0)
        else monthsSize.getD (getMonth env.tz t + 1 - 1).toNat 0 :=
  ⟨rfl, rfl, rfl, rfl⟩

theorem Month_number_range (env : Env) (t : Int) (lang : String) :
    1 ≤ (Month.new env t lang).number ∧ (Month.new env t lang).number ≤ 12 := by
  obtain ⟨a, b⟩ := MonthFromTime_range (LocalTime env.tz t)
  rw [(Month_new_fields env t lang).1]
  unfold getMonth
  omega

/-- The day count of a `Month` is the length of its month. -/
theorem Month_days_eq (env : Env) (t : Int) (lang : String) :
    (Month.new env t lang).numberOfDays =
      DaysInMonth ((Month.new env t lang).number - 1) (leapFlag (Month.new env t lang).year) := by
  obtain ⟨h1, h2⟩ := Month_number_range env t lang
  obtain ⟨f1, f2, -, f4⟩ := Month_new_fields env t lang
  rw [f4, ← f1, ← f2]
  generalize (Month.new env t lang).number = m at *
  generalize (Month.new env t lang).year = y at *
  have hl := (isLeapYear_iff y).1
  have hc := leapFlag_cases y
  have hm : m = 1 ∨ m = 2 ∨ m = 3 ∨ m = 4 ∨ m = 5 ∨ m = 6 ∨ m = 7 ∨ m = 8 ∨ m = 9 ∨
      m = 10 ∨ m = 11 ∨ m = 12 := by omega
  rcases hm with h | h | h | h | h | h | h | h | h | h | h | h <;> subst h <;>
    simp [monthsSize, DaysInMonth]
  by_cases hy : isLeapYear y = true
  · rw [hl.1 hy]; simp [hy]
  · have : leapFlag y = 0 := by
      rcases hc with hc | hc
      · exact hc.1
      · exact absurd (hl.2 hc.1) hy
    simp [hy, this]

/-- C6: for every year `y` and month `m` in 1..12 there is a `Month` for `(y, m)`, and for
every such `Month` the field `numberOfDays` is the entry `m - 1` of the table of month
lengths, with 29 for February when `isLeapYear(y)`; it is the length of that month in the
Gregorian calendar (the days from its first day to the first day of the next month), and
lies in 28..31.  `isLeapYear(y)` holds iff `y` is divisible by 4 and (not divisible by 100
or divisible by 400). -/
theorem Month_numberOfDays (env : Env) (lang : String) (y m : Int) (hm : 1 ≤ m ∧ m ≤ 12) :
    (∃ t, (Month.new env t lang).year = y ∧ (Month.new env t lang).number = m) ∧
      (∀ t, (Month.new env t lang).year = y → (Month.new env t lang).number = m →
        (Month.new env t lang).numberOfDays =
            (if m = 2 ∧ isLeapYear y = true then 29 else monthsSize.getD (m - 1).toNat 0) ∧
          (Month.new env t lang).numberOfDays = gregorianMonthLength y m ∧
          28 ≤ (Month.new env t lang).numberOfDays ∧
          (Month.new env t lang).numberOfDays ≤ 31) ∧
      (isLeapYear y = true ↔ (4 ∣ y ∧ (¬ 100 ∣ y ∨ 400 ∣ y))) := by
  obtain ⟨h1, h2⟩ := hm
  refine ⟨?_, ?_, (isLeapYear_iff y).2⟩
  · refine ⟨UTC env.tz (MakeDay y (m - 1) 1 * msPerDay), ?_⟩
    have e1 : (m - 1) / 12 = 0 := by omega
    have e2 : (m - 1) % 12 = m - 1 := by omega
    have hd : (1 : Int) ≤ DaysInMonth ((m - 1) % 12) (leapFlag (y + (m - 1) / 12)) := by
      unfold DaysInMonth
      rcases leapFlag_cases (y + (m - 1) / 12) with h | h <;> omega
    obtain ⟨a, b, -⟩ := fields_of_MakeDay_any y (m - 1) 1 (by omega) hd
    obtain ⟨f1, f2, -, -⟩ := Month_new_fields env (UTC env.tz (MakeDay y (m - 1) 1 * msPerDay)) lang
    rw [f1, f2]
    unfold getFullYear getMonth
    rw [LocalTime_UTC, a, b]
    omega
  · intro t hy hn
    have he := Month_days_eq env t lang
    rw [hy, hn] at he
    have hr := DaysInMonth_range (m - 1) (leapFlag y)
      (by rcases leapFlag_cases y with h | h <;> omega)
    refine ⟨?_, ?_, ?_, ?_⟩
    · rw [he]
      have hl := (isLeapYear_iff y).1
      have hc := leapFlag_cases y
      have hm : m = 1 ∨ m = 2 ∨ m = 3 ∨ m = 4 ∨ m = 5 ∨ m = 6 ∨ m = 7 ∨ m = 8 ∨ m = 9 ∨
          m = 10 ∨ m = 11 ∨ m = 12 := by omega
      rcases hm with h | h | h | h | h | h | h | h | h | h | h | h <;> subst h <;>
        simp [monthsSize, DaysInMonth]
      by_cases hy' : isLeapYear y = true
      · rw [hl.1 hy']; simp [hy']
      · have : leapFlag y = 0 := by
          rcases hc with hc | hc
          · exact hc.1
          · exact absurd (hl.2 hc.1) hy'
        simp [hy', this]
    · rw [he, gregorianMonthLength_eq y m h1 h2]
    · omega
    · omega

/-- The examples of C6: the leap years 2000 and 2024, the common years 1900 and 2023;
February 2024 has 29 days, February 2023 has 28, April 2023 has 30. -/
theorem Month_numberOfDays_witness :
    ((1 : Int) ≤ 2 ∧ (2 : Int) ≤ 12) ∧
      (Month.new Env.utc (ES.newDate 0 2024 1) "en").numberOfDays = 29 ∧
      (Month.new Env.utc (ES.newDate 0 2023 1) "en").numberOfDays = 28 ∧
      (Month.new Env.utc (ES.newDate 0 2023 3) "en").numberOfDays = 30 ∧
      isLeapYear 2000 = true ∧ isLeapYear 1900 = false ∧ isLeapYear 2024 = true ∧
      isLeapYear 2023 = false :=
  ⟨⟨by decide, by decide⟩,
    (((Month_numberOfDays Env.utc "en" 2024 2 ⟨by decide, by decide⟩).2.1
      (ES.newDate 0 2024 1) (by decide) (by decide)).1).trans (by decide),
    by decide, by decide, by decide, by decide, by decide, by decide⟩

/-! ## `Month.getDay` and the cursor of a `Calendar` -/

/-- The local time of `new Date(year, month, date)`. -/
theorem LocalTime_newDate (tz year month date : Int) :
    LocalTime tz (newDate tz year month date) =
      MakeDay (MakeFullYear year) month date * msPerDay := by
  unfold newDate
  rw [LocalTime_UTC]
  unfold MakeDate MakeTime
  omega

/-- The month built from `new Date(year, month)`, for any month index. -/
theorem Month_new_newDate (env : Env) (year month : Int) (lang : String) :
    (Month.new env (newDate env.tz year month) lang).number = month % 12 + 1 ∧
      (Month.new env (newDate env.tz year month) lang).year = MakeFullYear year + month / 12 := by
  have hd : (1 : Int) ≤ DaysInMonth (month % 12) (leapFlag (MakeFullYear year + month / 12)) := by
    unfold DaysInMonth
    rcases leapFlag_cases (MakeFullYear year + month / 12) with h | h <;> omega
  obtain ⟨a, b, -⟩ := fields_of_MakeDay_any (MakeFullYear year) month 1 (by omega) hd
  obtain ⟨f1, f2, -, -⟩ := Month_new_fields env (newDate env.tz year month) lang
  rw [f1, f2]
  unfold getFullYear getMonth
  rw [LocalTime_newDate, a, b]
  exact ⟨rfl, rfl⟩

theorem MakeFullYear_eq (y : Int) (h : ¬ (0 ≤ y ∧ y ≤ 99)) : MakeFullYear y = y := by
  unfold MakeFullYear
  rw [if_neg h]

/-- `MakeDay` counts the days of the month one by one. -/
theorem MakeDay_date_add (y m d k : Int) : MakeDay y m (d + k) = MakeDay y m d + k := by
  unfold MakeDay
  simp only
  omega

/-- Within the range of time values, `Month.getDay` returns the valid `Day` of the date. -/
theorem Month_getDay_valid (env : Env) (m : Month) (n : Int)
    (hr : -maxTime ≤ newDate env.tz m.year (m.number - 1) n ∧
      newDate env.tz m.year (m.number - 1) n ≤ maxTime) :
    m.getDay env n = .valid (m.getDayInRange env n) := by
  unfold Month.getDay TimeClip
  rw [if_pos hr]
  rfl

/-- The calendar fields of the day `Month.getDayInRange(n)`, for a year outside 0..99: those
of the local midnight of day `n` counted from the first day of the month. -/
theorem Month_getDayInRange_fields (env : Env) (m : Month) (n : Int)
    (hy : ¬ (0 ≤ m.year ∧ m.year ≤ 99)) :
    (m.getDayInRange env n).year = YearFromTime (MakeDay m.year (m.number - 1) n * msPerDay) ∧
      (m.getDayInRange env n).monthNumber =
        MonthFromTime (MakeDay m.year (m.number - 1) n * msPerDay) + 1 ∧
      (m.getDayInRange env n).date =
        DateFromTime (MakeDay m.year (m.number - 1) n * msPerDay) := by
  have hl := LocalTime_newDate env.tz m.year (m.number - 1) n
  rw [MakeFullYear_eq _ hy] at hl
  refine ⟨?_, ?_, ?_⟩
  · show getFullYear env.tz (newDate env.tz m.year (m.number - 1) n) = _
    unfold getFullYear
    rw [hl]
  · show getMonth env.tz (newDate env.tz m.year (m.number - 1) n) + 1 = _
    unfold getMonth
    rw [hl]
  · show getDate env.tz (newDate env.tz m.year (m.number - 1) n) = _
    unfold getDate
    rw [hl]

/-- Day 0 of a month is the last day of the month before, and the day after the last one is
the first day of the month after. -/
theorem MakeDay_neighbours (y m : Int) (h1 : 1 ≤ m) (h2 : m ≤ 12) :
    MakeDay y (m - 1) 0 =
        MakeDay (monthBefore (y, m)).1 ((monthBefore (y, m)).2 - 1)
          (gregorianMonthLength (monthBefore (y, m)).1 (monthBefore (y, m)).2) ∧
      MakeDay y (m - 1) (gregorianMonthLength y m + 1) =
        MakeDay (monthAfter (y, m)).1 ((monthAfter (y, m)).2 - 1) 1 := by
  constructor
  · have hb : monthAfter (monthBefore (y, m)) = (y, m) := by
      unfold monthAfter monthBefore
      by_cases h : m = 1
      · subst h; simp
      · have : ¬ m - 1 = 12 := by omega
        simp [h, this]
    have hg : gregorianMonthLength (monthBefore (y, m)).1 (monthBefore (y, m)).2 =
        MakeDay y (m - 1) 1 -
          MakeDay (monthBefore (y, m)).1 ((monthBefore (y, m)).2 - 1) 1 := by
      conv_lhs => unfold gregorianMonthLength
      rw [hb]
    have e1 := MakeDay_date_add y (m - 1) 1 (-1)
    have e2 := MakeDay_date_add (monthBefore (y, m)).1 ((monthBefore (y, m)).2 - 1) 1
      (gregorianMonthLength (monthBefore (y, m)).1 (monthBefore (y, m)).2 - 1)
    have e3 : (1 : Int) + -1 = 0 := by norm_num
    have e4 : (1 : Int) + (gregorianMonthLength (monthBefore (y, m)).1 (monthBefore (y, m)).2 - 1)
        = gregorianMonthLength (monthBefore (y, m)).1 (monthBefore (y, m)).2 := by ring
    rw [e3] at e1
    rw [e4] at e2
    rw [e1, e2]
    omega
  · have e1 := MakeDay_date_add y (m - 1) 1 (gregorianMonthLength y m)
    have e2 : (1 : Int) + gregorianMonthLength y m = gregorianMonthLength y m + 1 := by ring
    rw [e2] at e1
    rw [e1]
    unfold gregorianMonthLength
    omega

theorem goToNextMonth_cursor (env : Env) (c : Calendar) (h1 : 1 ≤ c.month.number)
    (h2 : c.month.number ≤ 12) :
    ((c.goToNextMonth env).year, (c.goToNextMonth env).month.number) =
        monthAfter (c.year, c.month.number) ∧
      (c.goToNextMonth env).month.year = MakeFullYear (c.goToNextMonth env).year := by
  unfold Calendar.goToNextMonth Calendar.goToNextYear monthAfter
  by_cases h : c.month.number = 12
  · simp only [h, if_true]
    obtain ⟨a, b⟩ := Month_new_newDate env (c.year + 1) 0 c.lang
    rw [a, b]
    exact ⟨rfl, by omega⟩
  · simp only [if_neg h]
    obtain ⟨a, b⟩ := Month_new_newDate env c.year (c.month.number + 1 - 1) c.lang
    rw [a, b]
    refine ⟨Prod.ext rfl ?_, ?_⟩
    · show (c.month.number + 1 - 1) % 12 + 1 = c.month.number + 1
      omega
    · show MakeFullYear c.year + (c.month.number + 1 - 1) / 12 = MakeFullYear c.year
      omega

theorem goToPreviousMonth_cursor (env : Env) (c : Calendar) (h1 : 1 ≤ c.month.number)
    (h2 : c.month.number ≤ 12) :
    ((c.goToPreviousMonth env).year, (c.goToPreviousMonth env).month.number) =
        monthBefore (c.year, c.month.number) ∧
      (c.goToPreviousMonth env).month.year = MakeFullYear (c.goToPreviousMonth env).year := by
  unfold Calendar.goToPreviousMonth Calendar.goToPreviousYear monthBefore
  by_cases h : c.month.number = 1
  · simp only [h, if_true]
    obtain ⟨a, b⟩ := Month_new_newDate env (c.year - 1) 11 c.lang
    rw [a, b]
    exact ⟨rfl, by omega⟩
  · simp only [if_neg h]
    obtain ⟨a, b⟩ := Month_new_newDate env c.year (c.month.number - 1 - 1) c.lang
    rw [a, b]
    refine ⟨Prod.ext rfl ?_, ?_⟩
    · show (c.month.number - 1 - 1) % 12 + 1 = c.month.number - 1
      omega
    · show MakeFullYear c.year + (c.month.number - 1 - 1) / 12 = MakeFullYear c.year
      omega

/-- The cursor of a new `Calendar` for a given year and month number in 1..12. -/
theorem Calendar_new_cursor (env : Env) (now year m : Int) (lang : String) (h1 : 1 ≤ m)
    (h2 : m ≤ 12) :
    (Calendar.new env now (some year) (some m) lang).year = year ∧
      (Calendar.new env now (some year) (some m) lang).month.number = m := by
  refine ⟨rfl, ?_⟩
  have h0 : m ≠ 0 := by omega
  show (Month.new env (newDate env.tz year ((if m = 0 then _ else m) - 1)) lang).number = m
  rw [if_neg h0, (Month_new_newDate env year (m - 1) lang).1]
  omega

/-- The calendar fields of day `dt` of month `m` (1..12) of year `y`. -/
theorem fields_of_MakeDay_month (y m dt : Int) (h1 : 1 ≤ m) (h2 : m ≤ 12) (d1 : 1 ≤ dt)
    (d2 : dt ≤ gregorianMonthLength y m) :
    YearFromTime (MakeDay y (m - 1) dt * msPerDay) = y ∧
      MonthFromTime (MakeDay y (m - 1) dt * msPerDay) + 1 = m ∧
      DateFromTime (MakeDay y (m - 1) dt * msPerDay) = dt := by
  rw [gregorianMonthLength_eq y m h1 h2] at d2
  have e1 : (m - 1) / 12 = 0 := by omega
  have e2 : (m - 1) % 12 = m - 1 := by omega
  have hd : dt ≤ DaysInMonth ((m - 1) % 12) (leapFlag (y + (m - 1) / 12)) := by
    rw [e1, e2, add_zero]
    exact d2
  obtain ⟨a, b, c⟩ := fields_of_MakeDay_any y (m - 1) dt d1 hd
  rw [a, b, c, e1, e2]
  exact ⟨by omega, by omega, rfl⟩

theorem monthBefore_range (y m : Int) (h1 : 1 ≤ m) (h2 : m ≤ 12) :
    1 ≤ (monthBefore (y, m)).2 ∧ (monthBefore (y, m)).2 ≤ 12 ∧
      1 ≤ (monthAfter (y, m)).2 ∧ (monthAfter (y, m)).2 ≤ 12 := by
  unfold monthBefore monthAfter
  refine ⟨?_, ?_, ?_, ?_⟩ <;> split_ifs <;> simp only <;> omega

/-! ## Claims on `Month.getDay` and on navigation -/

/-- C7, as stated, fails: `Month.getDay` has no range check and raises no error.  For March
2024 (31 days), `getDay(0)` returns February 29th, 2024 and `getDay(32)` returns April 1st,
2024; `getDay(100000000)` leaves the range of time values and returns the `Day` of an Invalid
Date.  For March of the year 50, `getDay(5)` returns March 5th, 1950. -/
theorem Month_getDay_out_of_range :
    (march2024.number, march2024.numberOfDays) = (3, 31) ∧
      (march2024.getDay Env.utc 0).ymd = some (2024, 2, 29) ∧
      (march2024.getDay Env.utc 32).ymd = some (2024, 4, 1) ∧
      march2024.getDay Env.utc 100000000 = .invalid ∧
      (march50.year, march50.number) = (50, 3) ∧
      (march50.getDay Env.utc 5).ymd = some (1950, 3, 5) := by
  decide

/-- C7, amended: in a `Month` whose year is not in 0..99, and for a date within the range of
time values, `Month.getDay(n)` returns a valid `Day`: for `1 <= n <= numberOfDays` the day
`n` of that same month and year, for `n = 0` the last day of the calendar month before, and
for `n = numberOfDays + 1` the first day of the calendar month after. -/
theorem Month_getDay_in_range (env : Env) (t : Int) (lang : String) (n : Int)
    (hy : ¬ (0 ≤ (Month.new env t lang).year ∧ (Month.new env t lang).year ≤ 99))
    (hr : -maxTime ≤ newDate env.tz (Month.new env t lang).year
        ((Month.new env t lang).number - 1) n ∧
      newDate env.tz (Month.new env t lang).year ((Month.new env t lang).number - 1) n ≤
        maxTime) :
    ∃ d : Day, (Month.new env t lang).getDay env n = .valid d ∧
      (1 ≤ n → n ≤ (Month.new env t lang).numberOfDays →
        d.date = n ∧ d.monthNumber = (Month.new env t lang).number ∧
          d.year = (Month.new env t lang).year) ∧
      (n = 0 →
        (d.year, d.monthNumber) =
            monthBefore ((Month.new env t lang).year, (Month.new env t lang).number) ∧
          d.date = gregorianMonthLength
            (monthBefore ((Month.new env t lang).year, (Month.new env t lang).number)).1
            (monthBefore ((Month.new env t lang).year, (Month.new env t lang).number)).2) ∧
      (n = (Month.new env t lang).numberOfDays + 1 →
        (d.year, d.monthNumber) =
            monthAfter ((Month.new env t lang).year, (Month.new env t lang).number) ∧
          d.date = 1) := by
  obtain ⟨r1, r2⟩ := Month_number_range env t lang
  have hlen : (Month.new env t lang).numberOfDays =
      gregorianMonthLength (Month.new env t lang).year (Month.new env t lang).number := by
    rw [Month_days_eq, gregorianMonthLength_eq _ _ r1 r2]
  generalize Month.new env t lang = M at *
  refine ⟨M.getDayInRange env n, Month_getDay_valid env M n hr, ?_, ?_, ?_⟩
  · intro h1 h2
    obtain ⟨fy, fm, fd⟩ := Month_getDayInRange_fields env M n hy
    obtain ⟨a, b, c⟩ := fields_of_MakeDay_month M.year M.number n r1 r2 h1 (by omega)
    rw [fy, fm, fd, a, b, c]
    exact ⟨rfl, rfl, rfl⟩
  · intro h0
    subst h0
    obtain ⟨fy, fm, fd⟩ := Month_getDayInRange_fields env M 0 hy
    obtain ⟨b1, b2, -, -⟩ := monthBefore_range M.year M.number r1 r2
    have hpos : 1 ≤ gregorianMonthLength (monthBefore (M.year, M.number)).1
        (monthBefore (M.year, M.number)).2 := by
      rw [gregorianMonthLength_eq _ _ b1 b2]
      have := DaysInMonth_range ((monthBefore (M.year, M.number)).2 - 1)
        (leapFlag (monthBefore (M.year, M.number)).1)
        (by rcases leapFlag_cases (monthBefore (M.year, M.number)).1 with h | h <;> omega)
      omega
    obtain ⟨a, b, c⟩ := fields_of_MakeDay_month (monthBefore (M.year, M.number)).1
      (monthBefore (M.year, M.number)).2 _ b1 b2 hpos (le_refl _)
    rw [fy, fm, fd, (MakeDay_neighbours M.year M.number r1 r2).1, a, b, c]
    exact ⟨rfl, rfl⟩
  · intro hn
    subst hn
    obtain ⟨fy, fm, fd⟩ := Month_getDayInRange_fields env M (M.numberOfDays + 1) hy
    obtain ⟨-, -, a1, a2⟩ := monthBefore_range M.year M.number r1 r2
    have hpos : 1 ≤ gregorianMonthLength (monthAfter (M.year, M.number)).1
        (monthAfter (M.year, M.number)).2 := by
      rw [gregorianMonthLength_eq _ _ a1 a2]
      have := DaysInMonth_range ((monthAfter (M.year, M.number)).2 - 1)
        (leapFlag (monthAfter (M.year, M.number)).1)
        (by rcases leapFlag_cases (monthAfter (M.year, M.number)).1 with h | h <;> omega)
      omega
    obtain ⟨a, b, c⟩ := fields_of_MakeDay_month (monthAfter (M.year, M.number)).1
      (monthAfter (M.year, M.number)).2 1 a1 a2 (le_refl _) hpos
    rw [fy, fm, fd, hlen, (MakeDay_neighbours M.year M.number r1 r2).2, a, b, c]
    exact ⟨rfl, rfl⟩

/-- The amended C7 on March 2024: `getDay(31)` is March 31st, 2024. -/
theorem Month_getDay_in_range_witness :
    ¬ (0 ≤ march2024.year ∧ march2024.year ≤ 99) ∧
      (-maxTime ≤ newDate Env.utc.tz march2024.year (march2024.number - 1) 31 ∧
        newDate Env.utc.tz march2024.year (march2024.number - 1) 31 ≤ maxTime) ∧
      (1 : Int) ≤ 31 ∧ 31 ≤ march2024.numberOfDays ∧
      ∃ d : Day, march2024.getDay Env.utc 31 = .valid d ∧
        (d.year, d.monthNumber, d.date) = (2024, 3, 31) :=
  ⟨by decide, by decide, by decide, by decide,
    (Month_getDay_in_range Env.utc (ES.newDate 0 2024 2) "en" 31 (by decide)
      (by decide)).elim fun d h =>
        ⟨d, h.1, by
          have key := h.2.1 (by decide) (by decide)
          rw [Prod.mk.injEq, Prod.mk.injEq]
          exact ⟨key.2.2.trans (by decide), key.2.1.trans (by decide), key.1⟩⟩⟩

/-- C8, as stated, fails for the years 0..99, which `new Date(year, month)` reads as
`1900 + year`: from the cursor of March of the year 50, `goToNextMonth` leaves the year field
at 50 with a month of April 1950, and `goToPreviousMonth` one of February 1950. -/
theorem goToNextMonth_two_digit_year :
    (calendar50.year, calendar50.month.number) = (50, 3) ∧
      ((calendar50.goToNextMonth Env.utc).year,
          (calendar50.goToNextMonth Env.utc).month.number,
          (calendar50.goToNextMonth Env.utc).month.year) = (50, 4, 1950) ∧
      ((calendar50.goToPreviousMonth Env.utc).year,
          (calendar50.goToPreviousMonth Env.utc).month.number,
          (calendar50.goToPreviousMonth Env.utc).month.year) = (50, 2, 1950) := by
  decide

/-- C8, amended: from a cursor at year `y` and month `m` (1..12), `goToNextMonth` moves the
year field and the month number to `(y, m + 1)`, or `(y + 1, 1)` for `m = 12`, and
`goToPreviousMonth` to `(y, m - 1)`, or `(y - 1, 12)` for `m = 1`; the year of the new month
agrees with the year field when that year is not in 0..99. -/
theorem goToMonth_cursor (env : Env) (c : Calendar) (h : 1 ≤ c.month.number ∧ c.month.number ≤ 12) :
    (((c.goToNextMonth env).year, (c.goToNextMonth env).month.number) =
          (if c.month.number = 12 then (c.year + 1, 1) else (c.year, c.month.number + 1)) ∧
        (¬ (0 ≤ (c.goToNextMonth env).year ∧ (c.goToNextMonth env).year ≤ 99) →
          (c.goToNextMonth env).month.year = (c.goToNextMonth env).year)) ∧
      (((c.goToPreviousMonth env).year, (c.goToPreviousMonth env).month.number) =
          (if c.month.number = 1 then (c.year - 1, 12) else (c.year, c.month.number - 1)) ∧
        (¬ (0 ≤ (c.goToPreviousMonth env).year ∧ (c.goToPreviousMonth env).year ≤ 99) →
          (c.goToPreviousMonth env).month.year = (c.goToPreviousMonth env).year)) := by
  obtain ⟨a, b⟩ := goToNextMonth_cursor env c h.1 h.2
  obtain ⟨a', b'⟩ := goToPreviousMonth_cursor env c h.1 h.2
  exact ⟨⟨a, fun hy => by rw [b, MakeFullYear_eq _ hy]⟩,
    ⟨a', fun hy => by rw [b', MakeFullYear_eq _ hy]⟩⟩

/-- The amended C8 on the right pane of the picker of March 15th, 2024: the next month is
April 2024, the previous one February 2024. -/
theorem goToMonth_cursor_witness :
    (1 ≤ picker0.calendarRight.month.number ∧ picker0.calendarRight.month.number ≤ 12) ∧
      ((picker0.calendarRight.goToNextMonth Env.utc).year,
          (picker0.calendarRight.goToNextMonth Env.utc).month.number) = (2024, 4) ∧
      ((picker0.calendarRight.goToPreviousMonth Env.utc).year,
          (picker0.calendarRight.goToPreviousMonth Env.utc).month.number) = (2024, 2) :=
  ⟨by decide,
    ((goToMonth_cursor Env.utc picker0.calendarRight (by decide)).1.1).trans (by decide),
    ((goToMonth_cursor Env.utc picker0.calendarRight (by decide)).2.1).trans (by decide)⟩

theorem monthAfter_monthBefore (ym : Int × Int) (h1 : 1 ≤ ym.2) (h2 : ym.2 ≤ 12) :
    monthAfter (monthBefore ym) = ym ∧ monthBefore (monthAfter ym) = ym ∧
      1 ≤ (monthBefore ym).2 ∧ (monthBefore ym).2 ≤ 12 ∧
      1 ≤ (monthAfter ym).2 ∧ (monthAfter ym).2 ≤ 12 := by
  obtain ⟨y, m⟩ := ym
  simp only at h1 h2
  unfold monthAfter monthBefore
  refine ⟨?_, ?_, ?_, ?_, ?_, ?_⟩
  · by_cases h : m = 1
    · subst h; simp
    · have : ¬ m - 1 = 12 := by omega
      simp [h, this]
  · by_cases h : m = 12
    · subst h; simp
    · have : ¬ m + 1 = 1 := by omega
      simp [h, this]
  all_goals split_ifs <;> simp only <;> omega

theorem panesApart_iff (p : DateRangePicker) :
    panesApart p = true ↔
      (p.calendarLeft.year, p.calendarLeft.month.number) =
          monthBefore (p.calendarRight.year, p.calendarRight.month.number) ∧
        1 ≤ p.calendarRight.month.number ∧ p.calendarRight.month.number ≤ 12 := by
  unfold panesApart
  simp [and_assoc]

theorem initializeCalendarVariables_panesApart (env : Env) (now : Int) (p : DateRangePicker)
    (lang : String) : panesApart (initializeCalendarVariables env now p lang) = true := by
  rw [panesApart_iff]
  obtain ⟨m0, m1⟩ := MonthFromTime_range (LocalTime env.tz now)
  have hm : (Day.new env now lang).monthNumber = MonthFromTime (LocalTime env.tz now) + 1 := rfl
  unfold initializeCalendarVariables
  simp only
  generalize (Day.new env now lang).monthNumber = m at *
  generalize (Day.new env now lang).year = y at *
  obtain ⟨r1, r2⟩ := Calendar_new_cursor env now y m lang (by omega) (by omega)
  obtain ⟨l1, l2⟩ := Calendar_new_cursor env now (if m = 1 then y - 1 else y)
    (if m = 1 then 12 else m - 1) lang (by split_ifs <;> omega) (by split_ifs <;> omega)
  rw [r1, r2, l1, l2]
  refine ⟨?_, by omega, by omega⟩
  unfold monthBefore
  split_ifs <;> rfl

theorem move_panesApart (env : Env) (p : DateRangePicker) (h : panesApart p = true) :
    panesApart (p.moveToPreviousMonth env) = true ∧
      panesApart (p.moveToNextMonth env) = true := by
  rw [panesApart_iff] at h
  obtain ⟨hl, r1, r2⟩ := h
  obtain ⟨-, -, b1, b2, a1, a2⟩ := monthAfter_monthBefore
    (p.calendarRight.year, p.calendarRight.month.number) r1 r2
  have l1 : 1 ≤ p.calendarLeft.month.number := by
    have := congrArg Prod.snd hl
    simp only at this
    omega
  have l2 : p.calendarLeft.month.number ≤ 12 := by
    have := congrArg Prod.snd hl
    simp only at this
    omega
  obtain ⟨nr, -⟩ := goToNextMonth_cursor env p.calendarRight r1 r2
  obtain ⟨nl, -⟩ := goToNextMonth_cursor env p.calendarLeft l1 l2
  obtain ⟨pr, -⟩ := goToPreviousMonth_cursor env p.calendarRight r1 r2
  obtain ⟨pl, -⟩ := goToPreviousMonth_cursor env p.calendarLeft l1 l2
  constructor
  · rw [panesApart_iff]
    show ((p.calendarLeft.goToPreviousMonth env).year,
        (p.calendarLeft.goToPreviousMonth env).month.number) =
      monthBefore ((p.calendarRight.goToPreviousMonth env).year,
        (p.calendarRight.goToPreviousMonth env).month.number) ∧
      1 ≤ (p.calendarRight.goToPreviousMonth env).month.number ∧
      (p.calendarRight.goToPreviousMonth env).month.number ≤ 12
    rw [pl, pr, hl]
    have e := congrArg Prod.snd pr
    simp only at e
    exact ⟨rfl, by omega, by omega⟩
  · rw [panesApart_iff]
    show ((p.calendarLeft.goToNextMonth env).year,
        (p.calendarLeft.goToNextMonth env).month.number) =
      monthBefore ((p.calendarRight.goToNextMonth env).year,
        (p.calendarRight.goToNextMonth env).month.number) ∧
      1 ≤ (p.calendarRight.goToNextMonth env).month.number ∧
      (p.calendarRight.goToNextMonth env).month.number ≤ 12
    rw [nl, nr, hl]
    obtain ⟨e1, e2, -⟩ := monthAfter_monthBefore
      (p.calendarRight.year, p.calendarRight.month.number) r1 r2
    rw [e1, e2]
    have e := congrArg Prod.snd nr
    simp only at e
    exact ⟨rfl, by omega, by omega⟩

theorem navigate_panesApart (env : Env) (navs : List Nav) :
    ∀ p : DateRangePicker, panesApart p = true → panesApart (p.navigate env navs) = true := by
  induction navs with
  | nil => exact fun p h => h
  | cons n ns ih =>
    intro p h
    cases n with
    | previous => exact ih _ (move_panesApart env p h).1
    | next => exact ih _ (move_panesApart env p h).2

theorem Calendar_new_month_year (env : Env) (now year m : Int) (lang : String) (h1 : 1 ≤ m)
    (h2 : m ≤ 12) :
    (Calendar.new env now (some year) (some m) lang).month.year = MakeFullYear year := by
  have h0 : m ≠ 0 := by omega
  show (Month.new env (newDate env.tz year ((if m = 0 then _ else m) - 1)) lang).year = _
  rw [if_neg h0, (Month_new_newDate env year (m - 1) lang).2]
  have e : (m - 1) / 12 = 0 := by omega
  rw [e, add_zero]

theorem initializeCalendarVariables_shown (env : Env) (now : Int) (p : DateRangePicker)
    (lang : String) : panesShown (initializeCalendarVariables env now p lang) = true := by
  obtain ⟨m0, m1⟩ := MonthFromTime_range (LocalTime env.tz now)
  have hm : (Day.new env now lang).monthNumber = MonthFromTime (LocalTime env.tz now) + 1 := rfl
  unfold panesShown
  simp only [Bool.and_eq_true, decide_eq_true_eq]
  unfold initializeCalendarVariables
  simp only
  generalize (Day.new env now lang).monthNumber = m at *
  generalize (Day.new env now lang).year = y at *
  exact ⟨Calendar_new_month_year env now (if m = 1 then y - 1 else y)
      (if m = 1 then 12 else m - 1) lang (by split_ifs <;> omega) (by split_ifs <;> omega),
    Calendar_new_month_year env now y m lang (by omega) (by omega)⟩

theorem panesApart_left_range (p : DateRangePicker) (h : panesApart p = true) :
    1 ≤ p.calendarLeft.month.number ∧ p.calendarLeft.month.number ≤ 12 ∧
      1 ≤ p.calendarRight.month.number ∧ p.calendarRight.month.number ≤ 12 := by
  rw [panesApart_iff] at h
  obtain ⟨hl, r1, r2⟩ := h
  obtain ⟨b1, b2, -, -⟩ := monthBefore_range p.calendarRight.year p.calendarRight.month.number
    r1 r2
  have e := congrArg Prod.snd hl
  simp only at e
  rw [e]
  exact ⟨b1, b2, r1, r2⟩

theorem move_shown (env : Env) (p : DateRangePicker) (h : panesApart p = true) :
    panesShown (p.moveToPreviousMonth env) = true ∧
      panesShown (p.moveToNextMonth env) = true := by
  obtain ⟨l1, l2, r1, r2⟩ := panesApart_left_range p h
  obtain ⟨-, nr⟩ := goToNextMonth_cursor env p.calendarRight r1 r2
  obtain ⟨-, nl⟩ := goToNextMonth_cursor env p.calendarLeft l1 l2
  obtain ⟨-, pr⟩ := goToPreviousMonth_cursor env p.calendarRight r1 r2
  obtain ⟨-, pl⟩ := goToPreviousMonth_cursor env p.calendarLeft l1 l2
  unfold panesShown moveToPreviousMonth moveToNextMonth
  simp only [nr, nl, pr, pl, decide_True, Bool.and_self, and_self]

theorem navigate_shown (env : Env) (navs : List Nav) :
    ∀ p : DateRangePicker, panesApart p = true → panesShown p = true →
      panesShown (p.navigate env navs) = true := by
  induction navs with
  | nil => exact fun p _ h => h
  | cons n ns ih =>
    intro p h _
    cases n with
    | previous => exact ih _ (move_panesApart env p h).1 (move_shown env p h).1
    | next => exact ih _ (move_panesApart env p h).2 (move_shown env p h).2

theorem navigate_previous (env : Env) (k : Nat) :
    ∀ p : DateRangePicker, panesApart p = true →
      (((p.navigate env (List.replicate k Nav.previous)).calendarLeft.year,
          (p.navigate env (List.replicate k Nav.previous)).calendarLeft.month.number) =
        monthBefore^[k] (p.calendarLeft.year, p.calendarLeft.month.number)) ∧
      (((p.navigate env (List.replicate k Nav.previous)).calendarRight.year,
          (p.navigate env (List.replicate k Nav.previous)).calendarRight.month.number) =
        monthBefore^[k] (p.calendarRight.year, p.calendarRight.month.number)) := by
  induction k with
  | zero => exact fun p _ => ⟨rfl, rfl⟩
  | succ k ih =>
    intro p h
    obtain ⟨l1, l2, r1, r2⟩ := panesApart_left_range p h
    obtain ⟨a, b⟩ := ih (p.moveToPreviousMonth env) (move_panesApart env p h).1
    have el : ((p.moveToPreviousMonth env).calendarLeft.year,
        (p.moveToPreviousMonth env).calendarLeft.month.number) =
        monthBefore (p.calendarLeft.year, p.calendarLeft.month.number) :=
      (goToPreviousMonth_cursor env p.calendarLeft l1 l2).1
    have er : ((p.moveToPreviousMonth env).calendarRight.year,
        (p.moveToPreviousMonth env).calendarRight.month.number) =
        monthBefore (p.calendarRight.year, p.calendarRight.month.number) :=
      (goToPreviousMonth_cursor env p.calendarRight r1 r2).1
    rw [el] at a
    rw [er] at b
    rw [Function.iterate_succ_apply, Function.iterate_succ_apply]
    exact ⟨a, b⟩

/-- C9, as stated, fails for the years 0..99, which `new Date(year, month)` reads as
`1900 + year`: after 23090 `moveToPreviousMonth` from the picker of March 15th, 2024 the
cursors are at (99, 12) and (100, 1), one month apart, but the month the left pane shows is
December 1999 and the month the right pane shows is January 100. -/
theorem panes_two_digit_year :
    ∃ q, picker0.navigate Env.utc (List.replicate 23090 Nav.previous) = q ∧
      (q.calendarLeft.year, q.calendarLeft.month.number, q.calendarLeft.month.year) =
        (99, 12, 1999) ∧
      (q.calendarRight.year, q.calendarRight.month.number, q.calendarRight.month.year) =
        (100, 1, 100) ∧
      (q.calendarLeft.month.year, q.calendarLeft.month.number) ≠
        monthBefore (q.calendarRight.month.year, q.calendarRight.month.number) := by
  have h0 : panesApart picker0 = true :=
    initializeCalendarVariables_panesApart Env.utc (ES.newDate 0 2024 2 15 12) _ "en"
  have s0 : panesShown picker0 = true :=
    initializeCalendarVariables_shown Env.utc (ES.newDate 0 2024 2 15 12) _ "en"
  obtain ⟨a, b⟩ := navigate_previous Env.utc 23090 picker0 h0
  have hs := navigate_shown Env.utc (List.replicate 23090 Nav.previous) picker0 h0 s0
  have cl : (picker0.calendarLeft.year, picker0.calendarLeft.month.number) = (2024, 2) := by
    decide
  have cr : (picker0.calendarRight.year, picker0.calendarRight.month.number) = (2024, 3) := by
    decide
  rw [cl, monthBefore_iterate 23090 2024 2 (by decide) (by decide)] at a
  rw [cr, monthBefore_iterate 23090 2024 3 (by decide) (by decide)] at b
  generalize picker0.navigate Env.utc (List.replicate 23090 Nav.previous) = q at *
  unfold panesShown at hs
  simp only [Bool.and_eq_true, decide_eq_true_eq] at hs
  obtain ⟨sl, sr⟩ := hs
  rw [Prod.mk.injEq] at a b
  obtain ⟨a1, a2⟩ := a
  obtain ⟨b1, b2⟩ := b
  have a1' : q.calendarLeft.year = 99 := a1.trans (by decide)
  have a2' : q.calendarLeft.month.number = 12 := a2.trans (by decide)
  have b1' : q.calendarRight.year = 100 := b1.trans (by decide)
  have b2' : q.calendarRight.month.number = 1 := b2.trans (by decide)
  have sl' : q.calendarLeft.month.year = 1999 := by rw [sl, a1']; decide
  have sr' : q.calendarRight.month.year = 100 := by rw [sr, b1']; decide
  refine ⟨q, rfl, ?_, ?_, ?_⟩
  · rw [a1', a2', sl']
  · rw [b1', b2', sr']
  · rw [a2', b2', sl', sr']
    decide

/-- C9, amended: after `initializeCalendarVariables` (so in a new picker, and after
`clearFilter`), and after any sequence of `moveToPreviousMonth` and `moveToNextMonth`, the
cursor (year field, month number) of `calendarLeft` is the calendar month before the one of
`calendarRight`, across the ends of the year too; the month each pane shows has the year
`new Date(year, month)` reads from the year field (`1900 + year` for a year in 0..99); so
when neither year field is in 0..99 the month the left pane shows is the calendar month
before the month the right pane shows. -/
theorem panes_one_month_apart (env : Env) (now : Int) (p : DateRangePicker) (lang : String)
    (navs : List Nav) :
    ∃ q, (initializeCalendarVariables env now p lang).navigate env navs = q ∧
      (q.calendarLeft.year, q.calendarLeft.month.number) =
        monthBefore (q.calendarRight.year, q.calendarRight.month.number) ∧
      q.calendarLeft.month.year = MakeFullYear q.calendarLeft.year ∧
      q.calendarRight.month.year = MakeFullYear q.calendarRight.year ∧
      (¬ (0 ≤ q.calendarLeft.year ∧ q.calendarLeft.year ≤ 99) →
        ¬ (0 ≤ q.calendarRight.year ∧ q.calendarRight.year ≤ 99) →
        (q.calendarLeft.month.year, q.calendarLeft.month.number) =
          monthBefore (q.calendarRight.month.year, q.calendarRight.month.number)) := by
  have h0 := initializeCalendarVariables_panesApart env now p lang
  have s0 := initializeCalendarVariables_shown env now p lang
  have h := (panesApart_iff _).1 (navigate_panesApart env navs _ h0)
  have hs := navigate_shown env navs _ h0 s0
  generalize (initializeCalendarVariables env now p lang).navigate env navs = q at *
  unfold panesShown at hs
  simp only [Bool.and_eq_true, decide_eq_true_eq] at hs
  refine ⟨q, rfl, h.1, hs.1, hs.2, fun hl hr => ?_⟩
  rw [hs.1, hs.2, MakeFullYear_eq _ hl, MakeFullYear_eq _ hr]
  exact h.1

/-- The amended C9 across the end of a year: three clicks on the previous arrow from the
picker of March 15th, 2024 leave the panes at November 2023 and December 2023. -/
theorem panes_one_month_apart_witness :
    ∃ q, picker0.navigate Env.utc [Nav.previous, Nav.previous, Nav.previous] = q ∧
      ¬ (0 ≤ q.calendarLeft.year ∧ q.calendarLeft.year ≤ 99) ∧
      ¬ (0 ≤ q.calendarRight.year ∧ q.calendarRight.year ≤ 99) ∧
      (q.calendarRight.month.year, q.calendarRight.month.number) = (2023, 12) ∧
      (q.calendarLeft.month.year, q.calendarLeft.month.number) = (2023, 11) := by
  obtain ⟨q, e, -, -, -, h⟩ := panes_one_month_apart Env.utc (ES.newDate 0 2024 2 15 12)
    { currentLang := "en"
      date := picker0.date
      calendarRight := picker0.calendarRight
      calendarLeft := picker0.calendarRight
      maxDate := picker0.maxDate
      format := picker0.format
      startDate := none
      endDate := none
      customOption := picker0.customOption
      modalHidden := true
      dateRange := "" } "en" [Nav.previous, Nav.previous, Nav.previous]
  have e0 : picker0.navigate Env.utc [Nav.previous, Nav.previous, Nav.previous] = q := e
  have hy : ¬ (0 ≤ q.calendarLeft.year ∧ q.calendarLeft.year ≤ 99) := by
    rw [← e0]; decide
  have hz : ¬ (0 ≤ q.calendarRight.year ∧ q.calendarRight.year ≤ 99) := by
    rw [← e0]; decide
  have hr : (q.calendarRight.month.year, q.calendarRight.month.number) = (2023, 12) := by
    rw [← e0]; decide
  exact ⟨q, e0, hy, hz, hr, (h hy hz).trans (by rw [hr]; decide)⟩

/-! ## Claim on `apply` -/

/-- Time values of the same day have the same calendar fields. -/
theorem fields_of_Day_eq (a b : Int) (h : Day a = Day b) :
    YearFromTime a = YearFromTime b ∧ MonthFromTime a = MonthFromTime b ∧
      DateFromTime a = DateFromTime b := by
  obtain ⟨a1, a2, a3⟩ := fields_midnight a
  obtain ⟨b1, b2, b3⟩ := fields_midnight b
  rw [h] at a1 a2 a3
  exact ⟨a1.symm.trans b1, a2.symm.trans b2, a3.symm.trans b3⟩

/-- C10: `apply` with a missing `startDate` or `endDate` fires no event and leaves the state
as it is.  With both dates set (valid days) and the modal open, the payload keeps
`startDate` and carries an `endDate` whose local time is the midnight of the selected end
day plus 23 h 59 min 59 s 999 ms, on the same calendar date (`isEqualTo`). -/
theorem apply_rangeData (env : Env) (p : DateRangePicker) :
    ((p.startDate = none ∨ p.endDate = none) → handleCTA env p "apply" = (p, none)) ∧
      (∀ s e : Day, p.startDate = some (.valid s) → p.endDate = some (.valid e) →
        p.modalHidden = false →
        ∃ e' : Day,
          (handleCTA env p "apply").2 = some { startDate := .valid s, endDate := .valid e' } ∧
            LocalTime env.tz e'.timestamp =
              Day (LocalTime env.tz e.timestamp) * msPerDay + 86399999 ∧
            e'.isEqualTo env e.timestamp = true) := by
  constructor
  · intro h
    rcases h with h | h
    · simp [handleCTA, h]
    · rcases hs : p.startDate with _ | s <;> simp [handleCTA, h, hs]
  · intro s e hs he hm
    refine ⟨Day.new env (setHours env.tz e.timestamp 23 59 59 999), ?_, ?_, ?_⟩
    · simp [handleCTA, hs, he, hm, toggleModal, updateButtonLabel, getEndOfDay, DayObj.new,
        DayObj.timestamp]
    · show LocalTime env.tz (setHours env.tz e.timestamp 23 59 59 999) = _
      rw [LocalTime_setHours]
      unfold MakeDate MakeTime
      omega
    · have hl : LocalTime env.tz (setHours env.tz e.timestamp 23 59 59 999) =
          MakeDate (Day (LocalTime env.tz e.timestamp)) (MakeTime 23 59 59 999) :=
        LocalTime_setHours _ _ _ _ _ _
      have hday : Day (LocalTime env.tz e.timestamp) =
          Day (LocalTime env.tz (setHours env.tz e.timestamp 23 59 59 999)) := by
        rw [hl, Day_MakeDate _ _ (by unfold MakeTime; omega)
          (by unfold MakeTime msPerDay; omega)]
      obtain ⟨a, b, c⟩ := fields_of_Day_eq _ _ hday
      simp only [Day.isEqualTo, Day.new, getDate, getMonth, getFullYear, a, b, c,
        add_sub_cancel_right, and_self, decide_True]

/-- The example of C10: with January 1st to 5th, 2024 selected, `apply` emits the start
unchanged and an end at 2024-01-05T23:59:59.999. -/
theorem apply_rangeData_witness :
    pickerJan.startDate = some (.valid jan1) ∧ pickerJan.endDate = some (.valid jan5) ∧
      pickerJan.modalHidden = false ∧
      (handleCTA Env.utc pickerJan "apply").2 =
        some { startDate := .valid jan1
               endDate := .valid (Day.new Env.utc (ES.newDate 0 2024 0 5 23 59 59 999)) } ∧
      ∃ e' : Day,
        (handleCTA Env.utc pickerJan "apply").2 =
            some { startDate := .valid jan1, endDate := .valid e' } ∧
          LocalTime Env.utc.tz e'.timestamp =
            Day (LocalTime Env.utc.tz jan5.timestamp) * msPerDay + 86399999 ∧
          e'.isEqualTo Env.utc jan5.timestamp = true :=
  ⟨rfl, rfl, rfl, by decide, (apply_rangeData Env.utc pickerJan).2 jan1 jan5 rfl rfl rfl⟩

/-! ## `Day.format` -/

/-- A stretch without the first letter of the token is copied, up to its last character. -/
theorem replaceWord_skip (t0 : Char) (ts val : List Char) (l : Char) (rest : List Char)
    (hl : l ≠ t0) :
    ∀ (pre : List Char) (pw : Bool), (∀ c ∈ pre, c ≠ t0) →
      replaceWord (t0 :: ts) val pw (pre ++ l :: rest) =
        pre ++ l :: replaceWord (t0 :: ts) val (isWordChar l) rest := by
  intro pre
  induction pre with
  | nil =>
    intro pw _
    have h : (t0 == l) = false := by simpa using fun h => hl h.symm
    simp [replaceWord, List.isPrefixOf, h]
  | cons c cs ih =>
    intro pw hc
    have hne : c ≠ t0 := hc c (List.mem_cons_self _ _)
    have h : (t0 == c) = false := by simpa using fun h => hne h.symm
    have hcs : ∀ x ∈ cs, x ≠ t0 := fun x hx => hc x (List.mem_cons_of_mem _ hx)
    simp [replaceWord, List.isPrefixOf, h, ih _ hcs]

/-- A list without the first letter of the token is left as it is. -/
theorem replaceWord_none (t0 : Char) (ts val : List Char) :
    ∀ (pre : List Char) (pw : Bool), (∀ c ∈ pre, c ≠ t0) →
      replaceWord (t0 :: ts) val pw pre = pre := by
  intro pre
  induction pre with
  | nil => intro pw _; rfl
  | cons c cs ih =>
    intro pw hc
    have hne : c ≠ t0 := hc c (List.mem_cons_self _ _)
    have h : (t0 == c) = false := by simpa using fun h => hne h.symm
    have hcs : ∀ x ∈ cs, x ≠ t0 := fun x hx => hc x (List.mem_cons_of_mem _ hx)
    simp [replaceWord, List.isPrefixOf, h, ih _ hcs]

theorem noToken_iff (l : List Char) :
    noToken l = true ↔ ∀ c ∈ l, c ≠ 'Y' ∧ c ≠ 'W' ∧ c ≠ 'D' ∧ c ≠ 'M' := by
  unfold noToken
  simp [List.all_eq_true, and_assoc]

/-- Past the digits of the year and the hyphen after them. -/
theorem replaceWord_year (t0 : Char) (ts val y rest : List Char) (h0 : t0 ≠ '-')
    (hy : ∀ c ∈ y, c ≠ t0) :
    replaceWord (t0 :: ts) val false (y ++ '-' :: rest) =
      y ++ '-' :: replaceWord (t0 :: ts) val false rest :=
  replaceWord_skip t0 ts val '-' rest (fun h => h0 h.symm) y false hy

/-- The twelve replacements of `format` on the pattern `YYYY-MM-DD`, for values of the year,
the padded month and the padded day that hold none of the letters of the tokens. -/
theorem format_chain (y m2 d2 ys w2 w dn ds d1 mn ms m1 : List Char) (hy : noToken y = true)
    (hm : noToken m2 = true) (hd : noToken d2 = true) :
    replaceWord "M".data m1 false
      (replaceWord "MM".data m2 false
        (replaceWord "MMM".data ms false
          (replaceWord "MMMM".data mn false
            (replaceWord "D".data d1 false
              (replaceWord "DD".data d2 false
                (replaceWord "DDD".data ds false
                  (replaceWord "DDDD".data dn false
                    (replaceWord "W".data w false
                      (replaceWord "WW".data w2 false
                        (replaceWord "YYY".data ys false
                          (replaceWord "YYYY".data y false
                            "YYYY-MM-DD".data))))))))))) =
      y ++ '-' :: (m2 ++ '-' :: d2) := by
  rw [noToken_iff] at hy hm hd
  have hyY : ∀ c ∈ y, c ≠ 'Y' := fun c hc => (hy c hc).1
  have hyW : ∀ c ∈ y, c ≠ 'W' := fun c hc => (hy c hc).2.1
  have hyD : ∀ c ∈ y, c ≠ 'D' := fun c hc => (hy c hc).2.2.1
  have hyM : ∀ c ∈ y, c ≠ 'M' := fun c hc => (hy c hc).2.2.2
  have hdD : ∀ c ∈ d2, c ≠ 'D' := fun c hc => (hd c hc).2.2.1
  have hdM : ∀ c ∈ d2, c ≠ 'M' := fun c hc => (hd c hc).2.2.2
  have hw : isWordChar '-' = false := by decide
  have hwM : isWordChar 'M' = true := by decide
  have hwD : isWordChar 'D' = true := by decide
  have e1 : replaceWord "YYYY".data y false "YYYY-MM-DD".data =
      y ++ '-' :: ['M', 'M', '-', 'D', 'D'] := by
    simp [replaceWord, List.isPrefixOf, hw]
  have e2 : ∀ val, replaceWord "YYY".data val false (y ++ '-' :: ['M', 'M', '-', 'D', 'D']) =
      y ++ '-' :: ['M', 'M', '-', 'D', 'D'] := by
    intro val
    show replaceWord ('Y' :: _) val false _ = _
    rw [replaceWord_year _ _ _ _ _ (by decide) hyY]
    simp [replaceWord, List.isPrefixOf]
  have e3 : ∀ ts val, replaceWord ('W' :: ts) val false (y ++ '-' :: ['M', 'M', '-', 'D', 'D']) =
      y ++ '-' :: ['M', 'M', '-', 'D', 'D'] := by
    intro ts val
    rw [replaceWord_year _ _ _ _ _ (by decide) hyW]
    simp [replaceWord, List.isPrefixOf]
  have e5 : ∀ ts val, replaceWord ('D' :: 'D' :: 'D' :: ts) val false
      (y ++ '-' :: ['M', 'M', '-', 'D', 'D']) = y ++ '-' :: ['M', 'M', '-', 'D', 'D'] := by
    intro ts val
    rw [replaceWord_year _ _ _ _ _ (by decide) hyD]
    simp [replaceWord, List.isPrefixOf]
  have e7 : replaceWord "DD".data d2 false (y ++ '-' :: ['M', 'M', '-', 'D', 'D']) =
      y ++ '-' :: 'M' :: 'M' :: '-' :: d2 := by
    show replaceWord ('D' :: _) d2 false _ = _
    rw [replaceWord_year _ _ _ _ _ (by decide) hyD]
    simp [replaceWord, List.isPrefixOf, hw, hwM]
  have e8 : ∀ val, replaceWord "D".data val false (y ++ '-' :: 'M' :: 'M' :: '-' :: d2) =
      y ++ '-' :: 'M' :: 'M' :: '-' :: d2 := by
    intro val
    show replaceWord ('D' :: _) val false _ = _
    rw [replaceWord_year _ _ _ _ _ (by decide) hyD]
    simp [replaceWord, List.isPrefixOf, replaceWord_none _ _ _ _ _ hdD]
  have e9 : ∀ ts val, replaceWord ('M' :: 'M' :: 'M' :: ts) val false
      (y ++ '-' :: 'M' :: 'M' :: '-' :: d2) = y ++ '-' :: 'M' :: 'M' :: '-' :: d2 := by
    intro ts val
    rw [replaceWord_year _ _ _ _ _ (by decide) hyM]
    simp [replaceWord, List.isPrefixOf, hwM, replaceWord_none _ _ _ _ _ hdM]
  have e11 : replaceWord "MM".data m2 false (y ++ '-' :: 'M' :: 'M' :: '-' :: d2) =
      y ++ '-' :: (m2 ++ '-' :: d2) := by
    show replaceWord ('M' :: _) m2 false _ = _
    rw [replaceWord_year _ _ _ _ _ (by decide) hyM]
    simp [replaceWord, List.isPrefixOf, hw]
  have e12 : ∀ val, replaceWord "M".data val false (y ++ '-' :: (m2 ++ '-' :: d2)) =
      y ++ '-' :: (m2 ++ '-' :: d2) := by
    intro val
    apply replaceWord_none
    intro c hc
    simp only [List.mem_append, List.mem_cons] at hc
    rcases hc with hc | hc | hc | hc | hc
    · exact hyM c hc
    · rw [hc]; decide
    · exact (hm c hc).2.2.2
    · rw [hc]; decide
    · exact hdM c hc
  rw [e1, e2]
  rw [show "WW".data = 'W' :: ['W'] from rfl, e3, show "W".data = 'W' :: [] from rfl, e3]
  rw [show "DDDD".data = 'D' :: 'D' :: 'D' :: ['D'] from rfl, e5,
    show "DDD".data = 'D' :: 'D' :: 'D' :: [] from rfl, e5, e7, e8]
  rw [show "MMMM".data = 'M' :: 'M' :: 'M' :: ['M'] from rfl, e9,
    show "MMM".data = 'M' :: 'M' :: 'M' :: [] from rfl, e9, e11, e12]

theorem toDigitsCore_step (f m : Nat) (ds : List Char) :
    Nat.toDigitsCore 10 (f + 1) m ds =
      if m / 10 = 0 then Nat.digitChar (m % 10) :: ds
      else Nat.toDigitsCore 10 f (m / 10) (Nat.digitChar (m % 10) :: ds) := rfl

/-- The text of a number in 1000..9999 is its four decimal digits. -/
theorem repr_four (n : Nat) (h1 : 1000 ≤ n) (h2 : n ≤ 9999) :
    (Nat.repr n).data = [Nat.digitChar (n / 10 / 10 / 10 % 10), Nat.digitChar (n / 10 / 10 % 10),
      Nat.digitChar (n / 10 % 10), Nat.digitChar (n % 10)] := by
  have a1 : n / 10 ≠ 0 := by omega
  have a2 : n / 10 / 10 ≠ 0 := by omega
  have a3 : n / 10 / 10 / 10 ≠ 0 := by omega
  have a4 : n / 10 / 10 / 10 / 10 = 0 := by omega
  have e : n + 1 = (n - 3) + 1 + 1 + 1 + 1 := by omega
  show Nat.toDigitsCore 10 (n + 1) n [] = _
  rw [e, toDigitsCore_step, if_neg a1, toDigitsCore_step, if_neg a2, toDigitsCore_step,
    if_neg a3, toDigitsCore_step, if_pos a4]

theorem digitChar_noToken (d : Nat) (h : d < 10) :
    Nat.digitChar d ≠ 'Y' ∧ Nat.digitChar d ≠ 'W' ∧ Nat.digitChar d ≠ 'D' ∧
      Nat.digitChar d ≠ 'M' := by
  interval_cases d <;> decide

theorem year_text (y : Int) (h1 : 1000 ≤ y) (h2 : y ≤ 9999) :
    noToken (toString y).data = true ∧ (toString y).length = 4 := by
  obtain ⟨n, rfl⟩ : ∃ n : Nat, y = n := ⟨y.toNat, by omega⟩
  have hr : (toString ((n : Nat) : Int)).data = (Nat.repr n).data := rfl
  have h4 := repr_four n (by omega) (by omega)
  constructor
  · rw [hr, h4, noToken_iff]
    intro c hc
    simp only [List.mem_cons, List.mem_singleton, List.not_mem_nil, or_false] at hc
    rcases hc with hc | hc | hc | hc <;> rw [hc] <;> exact digitChar_noToken _ (by omega)
  · show (toString ((n : Nat) : Int)).data.length = 4
    rw [hr, h4]
    rfl

theorem padded_text (k : Int) (h1 : 1 ≤ k) (h2 : k ≤ 31) :
    noToken (padStart0 2 (toString k)).data = true ∧ (padStart0 2 (toString k)).length = 2 := by
  interval_cases k <;> decide

/-! ## Claims on `format`, on the label and on `Calendar` -/

/-- C13: for every `Day` of a year in 1000..9999, `format("YYYY-MM-DD")` is the year (four
characters), a hyphen, the month number padded to two characters, a hyphen and the day of
the month padded to two characters. -/
theorem format_YYYY_MM_DD (env : Env) (t : Int) (lang : String)
    (h : 1000 ≤ (Day.new env t lang).year ∧ (Day.new env t lang).year ≤ 9999) :
    (Day.new env t lang).format "YYYY-MM-DD" =
        toString (Day.new env t lang).year ++ "-" ++
          padStart0 2 (toString (Day.new env t lang).monthNumber) ++ "-" ++
          padStart0 2 (toString (Day.new env t lang).date) ∧
      (toString (Day.new env t lang).year).length = 4 ∧
      (padStart0 2 (toString (Day.new env t lang).monthNumber)).length = 2 ∧
      (padStart0 2 (toString (Day.new env t lang).date)).length = 2 := by
  obtain ⟨m0, m1⟩ := MonthFromTime_range (LocalTime env.tz t)
  obtain ⟨d0, d1⟩ := DateFromTime_range (LocalTime env.tz t)
  have hl : InLeapYear (LocalTime env.tz t) = 0 ∨ InLeapYear (LocalTime env.tz t) = 1 := by
    unfold InLeapYear
    rcases leapFlag_cases (YearFromTime (LocalTime env.tz t)) with h | h <;> omega
  obtain ⟨-, d2⟩ := DaysInMonth_range (MonthFromTime (LocalTime env.tz t))
    (InLeapYear (LocalTime env.tz t)) hl
  have hmn : (Day.new env t lang).monthNumber = MonthFromTime (LocalTime env.tz t) + 1 := rfl
  have hdt : (Day.new env t lang).date = DateFromTime (LocalTime env.tz t) := rfl
  obtain ⟨yn, yl⟩ := year_text _ h.1 h.2
  obtain ⟨mn, ml⟩ := padded_text (Day.new env t lang).monthNumber (by omega) (by omega)
  obtain ⟨dn, dl⟩ := padded_text (Day.new env t lang).date (by omega) (by omega)
  refine ⟨?_, yl, ml, dl⟩
  apply String.ext
  show replaceWord "M".data _ false _ = _
  rw [format_chain _ _ _ _ _ _ _ _ _ _ _ _ yn mn dn]
  simp [String.data_append]

/-- The example of C13: the `Day` of March 5th, 2024 formats to `2024-03-05`. -/
theorem format_YYYY_MM_DD_witness :
    (1000 ≤ D5.year ∧ D5.year ≤ 9999) ∧ D5.format "YYYY-MM-DD" = "2024-03-05" :=
  ⟨by decide, (format_YYYY_MM_DD Env.utc (ES.newDate 0 2024 2 5) "en" (by decide)).1.trans
    (by decide)⟩

/-! ## The weekday headers -/

/-- The loop over the first seven days fills the seven headers in the order of the weekdays,
whatever the weekday `w0` of the first day, when the seven names are distinct. -/
theorem weekDays_fold (f : Int → String)
    (hinj : ∀ a b : Int, 0 ≤ a → a < 7 → 0 ≤ b → b < 7 → f a = f b → a = b) (w0 : Int)
    (h0 : 0 ≤ w0) (h1 : w0 < 7) (step : List (Option String) → Nat → List (Option String))
    (hstep : ∀ wd (i : Nat), step wd i =
      if wd.contains (some (f ((w0 + i) % 7))) then wd
      else wd.set ((w0 + i) % 7 + 1 - 1).toNat (some (f ((w0 + i) % 7)))) :
    (List.range 7).foldl step (List.replicate 7 none) =
      [some (f 0), some (f 1), some (f 2), some (f 3), some (f 4), some (f 5), some (f 6)] := by
  have h01 : f 0 ≠ f 1 := fun h => by have := hinj 0 1 (by omega) (by omega) (by omega) (by omega) h; omega
  have h02 : f 0 ≠ f 2 := fun h => by have := hinj 0 2 (by omega) (by omega) (by omega) (by omega) h; omega
  have h03 : f 0 ≠ f 3 := fun h => by have := hinj 0 3 (by omega) (by omega) (by omega) (by omega) h; omega
  have h04 : f 0 ≠ f 4 := fun h => by have := hinj 0 4 (by omega) (by omega) (by omega) (by omega) h; omega
  have h05 : f 0 ≠ f 5 := fun h => by have := hinj 0 5 (by omega) (by omega) (by omega) (by omega) h; omega
  have h06 : f 0 ≠ f 6 := fun h => by have := hinj 0 6 (by omega) (by omega) (by omega) (by omega) h; omega
  have h10 : f 1 ≠ f 0 := fun h => by have := hinj 1 0 (by omega) (by omega) (by omega) (by omega) h; omega
  have h12 : f 1 ≠ f 2 := fun h => by have := hinj 1 2 (by omega) (by omega) (by omega) (by omega) h; omega
  have h13 : f 1 ≠ f 3 := fun h => by have := hinj 1 3 (by omega) (by omega) (by omega) (by omega) h; omega
  have h14 : f 1 ≠ f 4 := fun h => by have := hinj 1 4 (by omega) (by omega) (by omega) (by omega) h; omega
  have h15 : f 1 ≠ f 5 := fun h => by have := hinj 1 5 (by omega) (by omega) (by omega) (by omega) h; omega
  have h16 : f 1 ≠ f 6 := fun h => by have := hinj 1 6 (by omega) (by omega) (by omega) (by omega) h; omega
  have h20 : f 2 ≠ f 0 := fun h => by have := hinj 2 0 (by omega) (by omega) (by omega) (by omega) h; omega
  have h21 : f 2 ≠ f 1 := fun h => by have := hinj 2 1 (by omega) (by omega) (by omega) (by omega) h; omega
  have h23 : f 2 ≠ f 3 := fun h => by have := hinj 2 3 (by omega) (by omega) (by omega) (by omega) h; omega
  have h24 : f 2 ≠ f 4 := fun h => by have := hinj 2 4 (by omega) (by omega) (by omega) (by omega) h; omega
  have h25 : f 2 ≠ f 5 := fun h => by have := hinj 2 5 (by omega) (by omega) (by omega) (by omega) h; omega
  have h26 : f 2 ≠ f 6 := fun h => by have := hinj 2 6 (by omega) (by omega) (by omega) (by omega) h; omega
  have h30 : f 3 ≠ f 0 := fun h => by have := hinj 3 0 (by omega) (by omega) (by omega) (by omega) h; omega
  have h31 : f 3 ≠ f 1 := fun h => by have := hinj 3 1 (by omega) (by omega) (by omega) (by omega) h; omega
  have h32 : f 3 ≠ f 2 := fun h => by have := hinj 3 2 (by omega) (by omega) (by omega) (by omega) h; omega
  have h34 : f 3 ≠ f 4 := fun h => by have := hinj 3 4 (by omega) (by omega) (by omega) (by omega) h; omega
  have h35 : f 3 ≠ f 5 := fun h => by have := hinj 3 5 (by omega) (by omega) (by omega) (by omega) h; omega
  have h36 : f 3 ≠ f 6 := fun h => by have := hinj 3 6 (by omega) (by omega) (by omega) (by omega) h; omega
  have h40 : f 4 ≠ f 0 := fun h => by have := hinj 4 0 (by omega) (by omega) (by omega) (by omega) h; omega
  have h41 : f 4 ≠ f 1 := fun h => by have := hinj 4 1 (by omega) (by omega) (by omega) (by omega) h; omega
  have h42 : f 4 ≠ f 2 := fun h => by have := hinj 4 2 (by omega) (by omega) (by omega) (by omega) h; omega
  have h43 : f 4 ≠ f 3 := fun h => by have := hinj 4 3 (by omega) (by omega) (by omega) (by omega) h; omega
  have h45 : f 4 ≠ f 5 := fun h => by have := hinj 4 5 (by omega) (by omega) (by omega) (by omega) h; omega
  have h46 : f 4 ≠ f 6 := fun h => by have := hinj 4 6 (by omega) (by omega) (by omega) (by omega) h; omega
  have h50 : f 5 ≠ f 0 := fun h => by have := hinj 5 0 (by omega) (by omega) (by omega) (by omega) h; omega
  have h51 : f 5 ≠ f 1 := fun h => by have := hinj 5 1 (by omega) (by omega) (by omega) (by omega) h; omega
  have h52 : f 5 ≠ f 2 := fun h => by have := hinj 5 2 (by omega) (by omega) (by omega) (by omega) h; omega
  have h53 : f 5 ≠ f 3 := fun h => by have := hinj 5 3 (by omega) (by omega) (by omega) (by omega) h; omega
  have h54 : f 5 ≠ f 4 := fun h => by have := hinj 5 4 (by omega) (by omega) (by omega) (by omega) h; omega
  have h56 : f 5 ≠ f 6 := fun h => by have := hinj 5 6 (by omega) (by omega) (by omega) (by omega) h; omega
  have h60 : f 6 ≠ f 0 := fun h => by have := hinj 6 0 (by omega) (by omega) (by omega) (by omega) h; omega
  have h61 : f 6 ≠ f 1 := fun h => by have := hinj 6 1 (by omega) (by omega) (by omega) (by omega) h; omega
  have h62 : f 6 ≠ f 2 := fun h => by have := hinj 6 2 (by omega) (by omega) (by omega) (by omega) h; omega
  have h63 : f 6 ≠ f 3 := fun h => by have := hinj 6 3 (by omega) (by omega) (by omega) (by omega) h; omega
  have h64 : f 6 ≠ f 4 := fun h => by have := hinj 6 4 (by omega) (by omega) (by omega) (by omega) h; omega
  have h65 : f 6 ≠ f 5 := fun h => by have := hinj 6 5 (by omega) (by omega) (by omega) (by omega) h; omega
  have hr : List.range 7 = [0, 1, 2, 3, 4, 5, 6] := by decide
  rw [hr]
  interval_cases w0 <;>
    simp [hstep, List.replicate, h01, h02, h03, h04, h05, h06, h10, h12, h13, h14, h15, h16, h20, h21, h23, h24, h25, h26, h30, h31, h32, h34, h35, h36, h40, h41, h42, h43, h45, h46, h50, h51, h52, h53, h54, h56, h60, h61, h62, h63, h64, h65]

/-- The weekday of day `i + 1` of a month follows the weekday of its first day. -/
theorem getDay_weekday (env : Env) (m : Month) (i : Int) :
    ES.getDay env.tz (newDate env.tz m.year (m.number - 1) (i + 1)) =
        (ES.getDay env.tz (newDate env.tz m.year (m.number - 1) 1) + i) % 7 ∧
      0 ≤ ES.getDay env.tz (newDate env.tz m.year (m.number - 1) 1) ∧
      ES.getDay env.tz (newDate env.tz m.year (m.number - 1) 1) < 7 := by
  unfold ES.getDay WeekDay
  rw [LocalTime_newDate, LocalTime_newDate, (Day_mul _).1, (Day_mul _).1]
  have e : MakeDay (MakeFullYear m.year) (m.number - 1) (i + 1) =
      MakeDay (MakeFullYear m.year) (m.number - 1) 1 + i := by
    unfold MakeDay
    simp only
    omega
  rw [e]
  omega

/-- C14: for every `Calendar` built for any year and month, in a locale whose seven weekday
names are distinct, the array `weekDays` is filled after the constructor and its entry `k`
(0..6) is the name of the weekday of ordinal `k + 1` (entry 0 is Sunday); so for each of the
first seven days `d` of the month, `weekDays[d.dayNumber - 1] = d.day`. -/
theorem Calendar_weekDays (env : Env) (now : Int) (year monthNumber : Option Int)
    (lang : String)
    (hinj : ∀ a b : Int, 0 ≤ a → a < 7 → 0 ≤ b → b < 7 →
      (env.locale lang).weekdayLong a = (env.locale lang).weekdayLong b → a = b) :
    (Calendar.new env now year monthNumber lang).weekDays =
        (List.range 7).map (fun k => some ((env.locale lang).weekdayLong k)) ∧
      ∀ i : Nat, i < 7 →
        (Calendar.new env now year monthNumber lang).weekDays[
            (((Calendar.new env now year monthNumber lang).month.getDayInRange env (i + 1)).dayNumber
              - 1).toNat]? =
          some (some ((Calendar.new env now year monthNumber lang).month.getDayInRange env (i + 1)).day) := by
  have hlang : (Calendar.new env now year monthNumber lang).month.lang = lang := rfl
  have hw : (Calendar.new env now year monthNumber lang).weekDays =
      (List.range 7).foldl
        (Calendar.weekDayStep env (Calendar.new env now year monthNumber lang).month)
        (List.replicate 7 none) := by
    simp only [Calendar.new]
  generalize (Calendar.new env now year monthNumber lang).month = M at *
  generalize (Calendar.new env now year monthNumber lang).weekDays = W at *
  obtain ⟨-, w0, w1⟩ := getDay_weekday env M 0
  have hstep : ∀ wd (i : Nat), Calendar.weekDayStep env M wd i =
      if wd.contains (some ((env.locale lang).weekdayLong
          ((ES.getDay env.tz (newDate env.tz M.year (M.number - 1) 1) + i) % 7))) then wd
      else wd.set ((ES.getDay env.tz (newDate env.tz M.year (M.number - 1) 1) + i) % 7 + 1
          - 1).toNat
        (some ((env.locale lang).weekdayLong
          ((ES.getDay env.tz (newDate env.tz M.year (M.number - 1) 1) + i) % 7))) := by
    intro wd i
    rw [← (getDay_weekday env M i).1, ← hlang]
    rfl
  have hW := weekDays_fold (env.locale lang).weekdayLong hinj _ w0 w1 _ hstep
  rw [← hw] at hW
  refine ⟨by rw [hW]; rfl, fun i hi => ?_⟩
  have hd : (M.getDayInRange env (i + 1)).dayNumber =
      (ES.getDay env.tz (newDate env.tz M.year (M.number - 1) 1) + i) % 7 + 1 := by
    rw [← (getDay_weekday env M i).1]
    rfl
  have hn : (M.getDayInRange env (i + 1)).day = (env.locale lang).weekdayLong
      ((ES.getDay env.tz (newDate env.tz M.year (M.number - 1) 1) + i) % 7) := by
    rw [← (getDay_weekday env M i).1, ← hlang]
    rfl
  rw [hd, hn, hW]
  generalize ES.getDay env.tz (newDate env.tz M.year (M.number - 1) 1) = a at *
  have hc : (a + i) % 7 = 0 ∨ (a + i) % 7 = 1 ∨ (a + i) % 7 = 2 ∨ (a + i) % 7 = 3 ∨
      (a + i) % 7 = 4 ∨ (a + i) % 7 = 5 ∨ (a + i) % 7 = 6 := by omega
  rcases hc with h | h | h | h | h | h | h <;> rw [h] <;> rfl

/-- The example of C14: the English names are distinct, and the calendar of March 2024, a
month that starts on a Friday, has the seven headers from Sunday to Saturday. -/
theorem Calendar_weekDays_witness :
    (∀ a b : Int, 0 ≤ a → a < 7 → 0 ≤ b → b < 7 →
        (Env.utc.locale "en").weekdayLong a = (Env.utc.locale "en").weekdayLong b → a = b) ∧
      picker0.calendarRight.weekDays =
        [some "Sunday", some "Monday", some "Tuesday", some "Wednesday", some "Thursday",
          some "Friday", some "Saturday"] ∧
      (picker0.calendarRight.month.getDayInRange Env.utc 1).day = "Friday" :=
  ⟨fun a b a0 a1 b0 b1 => by interval_cases a <;> interval_cases b <;> decide,
    ((Calendar_weekDays Env.utc (ES.newDate 0 2024 2 15 12) (some 2024) (some 3) "en"
      (fun a b a0 a1 b0 b1 => by interval_cases a <;> interval_cases b <;> decide)).1).trans
      (by decide),
    by decide⟩

/-- C11 fails on the code for dates before 1970.  For December 31st, 1969 to January 2nd,
1970, `updateButtonLabel` writes `-86400000-86400000`; `split("-")` cuts it at the minus sign
too, the first part is empty, and `preFillSelectedState` restores nothing into a cleared
picker.  For January 1st to 5th, 2024 the same steps restore both timestamps. -/
theorem preFillSelectedState_negative :
    (dec31.timestamp, jan2.timestamp) = (-86400000, 86400000) ∧
      (updateButtonLabel picker0 (.valid dec31) (.valid jan2)).dateRange =
        "-86400000-86400000" ∧
      split "-86400000-86400000" '-' = ["", "86400000", "86400000"] ∧
      (preFillSelectedState Env.utc
          (updateButtonLabel picker0 (.valid dec31) (.valid jan2))).timestamps = (none, none) ∧
      (preFillSelectedState Env.utc
          (updateButtonLabel picker0 (.valid jan1) (.valid jan5))).timestamps =
        (some (some jan1.timestamp), some (some jan5.timestamp)) := by
  decide

/-- C12, as stated, fails for a label of two non-empty parts that are not numbers: the only
test of `preFillSelectedState` is that both parts are non-empty.  With `abc-def` both dates
become days of an Invalid Date (their timestamp is NaN), with `12-x` the end does; the labels
without two non-empty parts (the empty one, `123`) leave the selection as it is. -/
theorem preFillSelectedState_malformed :
    (preFillSelectedState Env.utc { pickerJan with dateRange := "abc-def" }).selection =
        (some .invalid, some .invalid) ∧
      (preFillSelectedState Env.utc { pickerJan with dateRange := "12-x" }).timestamps =
        (some (some 12), some none) ∧
      preFillSelectedState Env.utc { pickerJan with dateRange := "" } =
        { pickerJan with dateRange := "" } ∧
      preFillSelectedState Env.utc { pickerJan with dateRange := "123" } =
        { pickerJan with dateRange := "123" } := by
  decide

theorem splitChars_no_sep (sep : Char) (cs : List Char) (h : sep ∉ cs) :
    splitChars sep cs = [cs] := by
  induction cs with
  | nil => rfl
  | cons c cs ih =>
    rw [List.mem_cons, not_or] at h
    have hc : ¬ c = sep := fun e => h.1 e.symm
    rw [splitChars, if_neg hc, ih h.2]

/-- C12, amended: `preFillSelectedState` returns for every label (it is total, nothing is
thrown).  It leaves the state as it is when the label cut at its hyphens has no second part,
as for every label without a hyphen, the empty one included, and when the first or the
second part is empty.  When both parts are non-empty it replaces both dates, each by the
`Day` of `new Date(Number(part))`: the `Day` of an Invalid Date (timestamp NaN) for a part
that is not read as a time value. -/
theorem preFillSelectedState_parts (env : Env) (p : DateRangePicker) :
    ('-' ∉ p.dateRange.data → preFillSelectedState env p = p) ∧
      ((split p.dateRange '-')[1]? = none → preFillSelectedState env p = p) ∧
      ∀ a b : String, (split p.dateRange '-')[0]? = some a →
        (split p.dateRange '-')[1]? = some b →
        (a = "" ∨ b = "" → preFillSelectedState env p = p) ∧
          (a ≠ "" → b ≠ "" →
            preFillSelectedState env p =
                { p with
                  startDate := some (DayObj.new env (env.Number a))
                  endDate := some (DayObj.new env (env.Number b)) } ∧
              (env.Number a = none →
                (preFillSelectedState env p).startDate = some .invalid) ∧
              (env.Number b = none →
                (preFillSelectedState env p).endDate = some .invalid)) := by
  have h1 : (split p.dateRange '-')[1]? = none → preFillSelectedState env p = p := by
    intro h
    unfold preFillSelectedState
    simp only [h]
    split <;> simp_all
  refine ⟨fun h => h1 ?_, h1, fun a b ha hb => ⟨fun hab => ?_, fun hna hnb => ?_⟩⟩
  · unfold split
    rw [splitChars_no_sep _ _ h]
    rfl
  · unfold preFillSelectedState
    simp only [ha, hb]
    rw [if_neg (by intro hc; rcases hab with h | h; exact hc.1 h; exact hc.2 h)]
  · have e : preFillSelectedState env p =
        { p with
          startDate := some (DayObj.new env (env.Number a))
          endDate := some (DayObj.new env (env.Number b)) } := by
      unfold preFillSelectedState
      simp only [ha, hb]
      rw [if_pos ⟨hna, hnb⟩]
    refine ⟨e, fun h => ?_, fun h => ?_⟩
    · rw [e, h]
      rfl
    · rw [e, h]
      rfl

/-- The amended C12 on the label `12-x`: the start becomes the day of time value 12 and the
end the day of an Invalid Date; the label `123`, without hyphen, changes nothing. -/
theorem preFillSelectedState_parts_witness :
    (preFillSelectedState Env.utc { pickerJan with dateRange := "12-x" }).endDate =
        some .invalid ∧
      ((preFillSelectedState Env.utc { pickerJan with dateRange := "12-x" }).startDate.map
        DayObj.timestamp) = some (some 12) ∧
      preFillSelectedState Env.utc { pickerJan with dateRange := "123" } =
        { pickerJan with dateRange := "123" } :=
  ⟨((preFillSelectedState_parts Env.utc { pickerJan with dateRange := "12-x" }).2.2 "12" "x"
      (by decide) (by decide)).2 (by decide) (by decide) |>.2.2 (by decide),
    by
      rw [((preFillSelectedState_parts Env.utc { pickerJan with dateRange := "12-x" }).2.2
        "12" "x" (by decide) (by decide)).2 (by decide) (by decide) |>.1]
      decide,
    (preFillSelectedState_parts Env.utc { pickerJan with dateRange := "123" }).1 (by decide)⟩

/-- C15 fails on the code: `getNextMonth` builds its month from the index `number + 2`.  For
a cursor at month `m` in 1..11 it returns the month of number `(m + 2) mod 12 + 1`, not the
month `m + 1` that `goToNextMonth` moves to; for `m = 12` both give January. -/
theorem getNextMonth_number (env : Env) (c : Calendar)
    (h : 1 ≤ c.month.number ∧ c.month.number ≤ 12) :
    (c.getNextMonth env).number =
        (if c.month.number = 12 then 1 else (c.month.number + 2) % 12 + 1) ∧
      (c.goToNextMonth env).month.number =
        (if c.month.number = 12 then 1 else c.month.number + 1) ∧
      (c.month.number ≠ 12 → (c.getNextMonth env).number ≠ (c.goToNextMonth env).month.number) := by
  obtain ⟨a, -⟩ := goToNextMonth_cursor env c h.1 h.2
  have a2 := congrArg Prod.snd a
  simp only [monthAfter] at a2
  have hn : (c.getNextMonth env).number =
      (if c.month.number = 12 then 1 else (c.month.number + 2) % 12 + 1) := by
    unfold Calendar.getNextMonth
    split_ifs
    · rw [(Month_new_newDate env (c.year + 1) 0 c.lang).1]
      rfl
    · rw [(Month_new_newDate env c.year (c.month.number + 2) c.lang).1]
  have hg : (c.goToNextMonth env).month.number =
      (if c.month.number = 12 then 1 else c.month.number + 1) := by
    rw [a2]
    split_ifs <;> rfl
  refine ⟨hn, hg, fun h12 => ?_⟩
  rw [hn, hg, if_neg h12, if_neg h12]
  omega

/-- The failure of C15 on January 2024: `getNextMonth` returns April 2024 while
`goToNextMonth` moves to February 2024; on November 2024 it returns February 2025. -/
theorem getNextMonth_number_witness :
    (1 ≤ calendarJan.month.number ∧ calendarJan.month.number ≤ 12) ∧
      ((calendarJan.getNextMonth Env.utc).year, (calendarJan.getNextMonth Env.utc).number) =
        (2024, 4) ∧
      ((calendarJan.goToNextMonth Env.utc).month.year,
          (calendarJan.goToNextMonth Env.utc).month.number) = (2024, 2) ∧
      ((calendarNov.getNextMonth Env.utc).year, (calendarNov.getNextMonth Env.utc).number) =
        (2025, 2) ∧
      (calendarJan.getNextMonth Env.utc).number ≠
        (calendarJan.goToNextMonth Env.utc).month.number :=
  ⟨by decide, by decide, by decide, by decide,
    (getNextMonth_number Env.utc calendarJan (by decide)).2.2 (by decide)⟩

